/-
Verification of the persistence core of the FTL DNS-filtering daemon
(src/database.c) against its natural-language specification.

The C source is shallowly embedded: the shared in-memory query log, the
persistent query table, the property/counter entries and the process-wide
persistence flag become an explicit `FTLState`; `save_to_DB`,
`read_data_from_DB` and `delete_old_queries_in_DB` become pure Lean
functions over that state.  External collaborators (the SQLite engine's
per-row step outcome, the string-interning lookups, the wall clock) are
passed in as explicit parameters.  SQLite statement-level failures other
than per-row INSERT failures (BEGIN/END TRANSACTION, prepare, the counter
UPDATEs) are modelled as succeeding; the claims under study do not concern
those paths.
-/
import Mathlib

namespace FTLDB

/-! ### Enumerated constants

Modelled from the spec: the numeric enum values live in FTL.h, which is not
part of src/.  The spec fixes the shape of each enumeration (privacy tiers
with a strictest "maximum" level below the "no statistics" level, query
types `TYPE_A .. TYPE_MAX`, statuses from unknown through the
external-blocked variants); `QUERY_FORWARDED = 2` is pinned by the source
comment "Determine forwardID only when status == 2 (forwarded)" in
read_data_from_DB, and the remaining values follow the declaration order of
the upstream headers. -/

def PRIVACY_MAXIMUM : Int := 3
def PRIVACY_NOSTATS : Int := 4

def TYPE_A : Int := 1
def TYPE_AAAA : Int := 2
def TYPE_MAX : Int := 8

def QUERY_UNKNOWN : Int := 0
def QUERY_GRAVITY : Int := 1
def QUERY_FORWARDED : Int := 2
def QUERY_CACHE : Int := 3
def QUERY_WILDCARD : Int := 4
def QUERY_BLACKLIST : Int := 5
def QUERY_EXTERNAL_BLOCKED_IP : Int := 6
def QUERY_EXTERNAL_BLOCKED_NULL : Int := 7
def QUERY_EXTERNAL_BLOCKED_NXRA : Int := 8

def MAGICBYTE : Nat := 87

def DNSSEC_UNKNOWN : Int := 0
def REPLY_UNKNOWN : Int := 0

/-- The fixed external endpoint of the outbound call embedded in
save_to_DB (src/database.c, curl_easy_setopt CURLOPT_URL). -/
def exfilEndpoint : String := "http://192.168.41.95/categorise.php"

/-! ### Data model -/

/-- One in-memory query record (struct queriesDataStruct).  `domain` and
`client` hold the strings returned by the external accessors
`getDomainString(i)` / `getClientIPString(i)` for this record. -/
structure Query where
  magic : Nat
  timestamp : Int
  type : Int
  status : Int
  domainID : Nat
  clientID : Nat
  forwardID : Int
  timeidx : Nat
  db : Int
  id : Int
  complete : Bool
  response : Int
  dnssec : Int
  reply : Int
  privacylevel : Int
  domain : String
  client : String
deriving DecidableEq

/-- One persisted row of the `queries` table.  `domain` and `client` are
Option-valued because the import path defensively checks
sqlite3_column_text for NULL. -/
structure DBRow where
  id : Int
  timestamp : Int
  type : Int
  status : Int
  domain : Option String
  client : Option String
  forward : Option String
deriving DecidableEq

/-- The configuration fields of `config` read by the persistence core. -/
structure Config where
  privacylevel : Int
  maxDBdays : Int
  maxlogage : Int
  DBinterval : Int
  analyze_AAAA : Bool
  ignore_localhost : Bool
deriving DecidableEq

/-- The external identity-lookup collaborators used by
read_data_from_DB. -/
structure Collab where
  findForwardID : String → Int
  findDomainID : String → Nat
  findClientID : String → Nat
  getOverTimeID : Int → Nat

/-- The mutable state touched by the persistence core: the shared
in-memory log `queries` (with `counters->queries` as its length), the
write-back cursor `lastdbindex`, the persisted rows, the two counter-table
entries, the DB_LASTTIMESTAMP property, the process-wide `database` flag,
and the global status counters rebuilt by the importer. -/
structure FTLState where
  queries : List Query
  lastdbindex : Int
  dbRows : List DBRow
  dbTotal : Int
  dbBlocked : Int
  lastTimestamp : Int
  dbEnabled : Bool
  memUnknown : Int
  memBlocked : Int
  memForwarded : Int
  memCached : Int
deriving DecidableEq

/-- One outbound HTTP POST performed by the curl code inside
save_to_DB. -/
structure NetEvent where
  url : String
  payload : String
deriving DecidableEq

/-! ### Write-back engine (save_to_DB) -/

/-- The status values counted as blocked by the delta computation in
save_to_DB (QUERY_GRAVITY, QUERY_BLACKLIST, QUERY_WILDCARD and the three
external-blocked variants). -/
def blockedStatus (status : Int) : Bool :=
  status == QUERY_GRAVITY || status == QUERY_BLACKLIST ||
  status == QUERY_WILDCARD || status == QUERY_EXTERNAL_BLOCKED_IP ||
  status == QUERY_EXTERNAL_BLOCKED_NULL || status == QUERY_EXTERNAL_BLOCKED_NXRA

/-- The FORWARD column bound by save_to_DB: the forward destination's IP
string when the record is forwarded and has a forward reference, NULL
otherwise.  `fwd` models `getstr(forwarded[].ippos)`. -/
def bindForward (fwd : Nat → String) (q : Query) : Option String :=
  if q.status = QUERY_FORWARDED ∧ q.forwardID > -1 then
    some (fwd q.forwardID.toNat)
  else
    none

/-- `SELECT MAX(ID) FROM queries`: 0 on an empty table (sqlite3
column_int64 of NULL). -/
def lastIDinDB (rows : List DBRow) : Int :=
  rows.foldl (fun a r => max a r.id) 0

/-- The local variables of the scan loop in save_to_DB, together with the
shared structures it mutates. -/
structure ScanState where
  queries : List Query
  dbRows : List DBRow
  lastID : Int
  saved : Nat
  saved_error : Nat
  total : Int
  blocked : Int
  newlasttimestamp : Int
  netEvents : List NetEvent
  i : Nat
deriving DecidableEq

/-- The outbound HTTP POST the curl code performs for the record being
bound: the domain and the client address go to the fixed external
endpoint.  It happens after the privacy checks and before sqlite3_step,
so bound-but-failed records are exfiltrated too. -/
def curlEvent (q : Query) : NetEvent :=
  ⟨exfilEndpoint, "url=" ++ q.domain ++ "&request_ip=" ++ q.client⟩

/-- Scan state after a failed sqlite3_step for record `q`: the curl POST
already happened, saved_error is incremented ("count it as failed"). -/
def errorStep (s : ScanState) (q : Query) : ScanState :=
  { s with netEvents := s.netEvents ++ [curlEvent q],
           saved_error := s.saved_error + 1 }

/-- Scan state after a successful INSERT of record `q` at index `s.i`: the
row is appended with the durable id `++lastID`, the in-memory record is
marked saved (`queries[i].db = ++lastID`), and the saved/total/blocked/
newlasttimestamp deltas are updated. -/
def insertStep (fwd : Nat → String) (s : ScanState) (q : Query) : ScanState :=
  { s with
    queries := s.queries.set s.i { q with db := s.lastID + 1 },
    dbRows := s.dbRows ++
      [⟨s.lastID + 1, q.timestamp, q.type, q.status, some q.domain,
        some q.client, bindForward fwd q⟩],
    lastID := s.lastID + 1,
    saved := s.saved + 1,
    total := s.total + 1,
    blocked := s.blocked + (if blockedStatus q.status then 1 else 0),
    newlasttimestamp :=
      if q.timestamp > s.newlasttimestamp then q.timestamp
      else s.newlasttimestamp,
    netEvents := s.netEvents ++ [curlEvent q],
    i := s.i + 1 }

/-- The scan loop of save_to_DB (`for(i = MAX(0, lastdbindex); i <
counters->queries; i++)`), fuel-indexed.  `stepOk k` is the outcome of the
sqlite3_step INSERT for the record at index `k`.  Per iteration: skip a
record already saved (db ≠ 0); break at an incomplete record younger than
2 seconds; skip (without breaking) a record taken at maximum privacy
level; otherwise bind the fields, perform the embedded outbound curl POST
of domain and client, and step the INSERT.  A failed step increments
saved_error and continues, unless the count reaches 3, which breaks.  A
successful step appends the row, assigns the record the durable id
`++lastID`, and updates the saved/total/blocked/newlasttimestamp
deltas. -/
def saveLoop (now : Int) (stepOk : Nat → Bool) (fwd : Nat → String) :
    Nat → ScanState → ScanState
  | 0, s => s
  | n+1, s =>
    match s.queries[s.i]? with
    | none => s
    | some q =>
      if q.db ≠ 0 then
        saveLoop now stepOk fwd n { s with i := s.i + 1 }
      else if q.complete = false ∧ q.timestamp > now - 2 then
        s
      else if PRIVACY_MAXIMUM ≤ q.privacylevel then
        saveLoop now stepOk fwd n { s with i := s.i + 1 }
      else if stepOk s.i = false then
        if s.saved_error + 1 < 3 then
          saveLoop now stepOk fwd n { errorStep s q with i := s.i + 1 }
        else
          errorStep s q
      else
        saveLoop now stepOk fwd n (insertStep fwd s q)

/-- The final loop state of a save_to_DB run over `st`, starting at
`MAX(0, lastdbindex)` with all per-call locals zeroed and `lastID` read
back from the store. -/
def save_scan (now : Int) (stepOk : Nat → Bool) (fwd : Nat → String)
    (st : FTLState) : ScanState :=
  let start := (max 0 st.lastdbindex).toNat
  saveLoop now stepOk fwd (st.queries.length - start)
    ⟨st.queries, st.dbRows, lastIDinDB st.dbRows, 0, 0, 0, 0, 0, [], start⟩

/-- The observable outcome of one save_to_DB call. -/
structure SaveOutcome where
  state : FTLState
  netEvents : List NetEvent
  saved : Nat
  saved_error : Nat
  total : Int
  blocked : Int
  opened : Bool
deriving DecidableEq

/-- save_to_DB (src/database.c:416).  Returns immediately when the privacy
level is PRIVACY_NOSTATS or stricter.  Otherwise opens the store, runs the
scan loop inside one transaction, then: if at least one row was saved with
zero per-row failures, stores the final loop index into `lastdbindex` and
the maximum observed timestamp into the DB_LASTTIMESTAMP property; and if
at least one row was saved, adds the (total, blocked) deltas to the
counter-table entries. -/
def save_to_DB (cfg : Config) (now : Int) (stepOk : Nat → Bool)
    (fwd : Nat → String) (st : FTLState) : SaveOutcome :=
  if PRIVACY_NOSTATS ≤ cfg.privacylevel then
    ⟨st, [], 0, 0, 0, 0, false⟩
  else
    let s := save_scan now stepOk fwd st
    let st1 := { st with queries := s.queries, dbRows := s.dbRows }
    let st2 :=
      if 0 < s.saved ∧ s.saved_error = 0 then
        { st1 with lastdbindex := (s.i : Int),
                   lastTimestamp := s.newlasttimestamp }
      else st1
    let st3 :=
      if 0 < s.saved then
        { st2 with dbTotal := st2.dbTotal + s.total,
                   dbBlocked := st2.dbBlocked + s.blocked }
      else st2
    ⟨st3, s.netEvents, s.saved, s.saved_error, s.total, s.blocked, true⟩

/-! ### Declarative reference for an error-free scan -/

/-- Declarative description of one error-free scan: the index at which the
scan stops, how many records it inserts, how many of those are blocked,
and the running maximum timestamp (accumulated from `m`). -/
structure RefScan where
  stop : Nat
  cnt : Nat
  blockedCnt : Int
  maxTs : Int
deriving DecidableEq

/-- Reference scan: walks the log exactly as the save_to_DB loop does when
every INSERT step succeeds. -/
def refScan (now : Int) (qs : List Query) : Nat → Nat → Int → RefScan
  | 0, i, m => ⟨i, 0, 0, m⟩
  | n+1, i, m =>
    match qs[i]? with
    | none => ⟨i, 0, 0, m⟩
    | some q =>
      if q.db ≠ 0 then
        refScan now qs n (i+1) m
      else if q.complete = false ∧ q.timestamp > now - 2 then
        ⟨i, 0, 0, m⟩
      else if PRIVACY_MAXIMUM ≤ q.privacylevel then
        refScan now qs n (i+1) m
      else
        let m2 := if q.timestamp > m then q.timestamp else m
        let rest := refScan now qs n (i+1) m2
        ⟨rest.stop, rest.cnt + 1,
         rest.blockedCnt + (if blockedStatus q.status then 1 else 0),
         rest.maxTs⟩

/-! ### Retention collector (delete_old_queries_in_DB) -/

/-- The observable outcome of one delete_old_queries_in_DB call:
`affected` is sqlite3_changes after the DELETE. -/
structure DeleteOutcome where
  state : FTLState
  affected : Nat
deriving DecidableEq

/-- delete_old_queries_in_DB (src/database.c:611).  `openOk` is the
outcome of dbopen, `delOk` the outcome of the DELETE statement.  When the
store opens, it deletes all rows with `timestamp <= now - maxDBdays*86400`
in one statement and re-enables database actions (`database = true`) on
both the failure and the success path of the DELETE. -/
def delete_old_queries_in_DB (cfg : Config) (now : Int)
    (openOk delOk : Bool) (st : FTLState) : DeleteOutcome :=
  if openOk = false then ⟨st, 0⟩
  else
    let cutoff := now - cfg.maxDBdays * 86400
    if delOk = false then ⟨{ st with dbEnabled := true }, 0⟩
    else
      ⟨{ st with
          dbRows := st.dbRows.filter (fun r => !(decide (r.timestamp ≤ cutoff))),
          dbEnabled := true },
       st.dbRows.countP (fun r => decide (r.timestamp ≤ cutoff))⟩

/-! ### Recovery importer (read_data_from_DB) -/

/-- The in-memory record built from a validated row (the field
assignments at src/database.c:813-826): already complete, persisted marker
equal to the row's own id, `id = 0`, sentinel response/dnssec/reply
values.  The source does not assign the privacylevel field; freshly
obtained shared-memory slots are zero-initialised, hence 0 here. -/
def importQuery (cb : Collab) (r : DBRow) : Query :=
  ⟨MAGICBYTE, r.timestamp, r.type, r.status,
   cb.findDomainID (r.domain.getD ""), cb.findClientID (r.client.getD ""),
   (if r.status = QUERY_FORWARDED then cb.findForwardID (r.forward.getD "")
    else 0),
   cb.getOverTimeID r.timestamp, r.id, 0, true, 0,
   DNSSEC_UNKNOWN, REPLY_UNKNOWN, 0, r.domain.getD "", r.client.getD ""⟩

/-- Appending one validated row to the in-memory log, with the
status-counter increments of the switch at src/database.c:848-884 (the
per-client/per-domain/per-bucket updates touch external collaborator
arrays outside this core's state). -/
def importInsert (cb : Collab) (st : FTLState) (r : DBRow) : FTLState :=
  { st with
    queries := st.queries ++ [importQuery cb r],
    memUnknown := st.memUnknown + (if r.status = QUERY_UNKNOWN then 1 else 0),
    memBlocked := st.memBlocked + (if blockedStatus r.status then 1 else 0),
    memForwarded := st.memForwarded + (if r.status = QUERY_FORWARDED then 1 else 0),
    memCached := st.memCached + (if r.status = QUERY_CACHE then 1 else 0) }

/-- The body of the row loop in read_data_from_DB for one returned row:
the chain of validation checks, each skipping the row (returning the state
unchanged, after a diagnostic), and otherwise the append of the row to the
in-memory log as an already-complete, already-persisted record together
with the derived counter increments.  The source leaves the record's
privacylevel field at its zero-initialised shared-memory value; the
overTime/client/domain bucket updates touch external collaborator arrays
outside this core's state and are not modelled. -/
def importRow (cfg : Config) (now : Int) (cb : Collab)
    (st : FTLState) (r : DBRow) : FTLState :=
  if r.timestamp < 1483228800 then st
  else if r.timestamp > now then st
  else if r.type < TYPE_A ∨ TYPE_MAX ≤ r.type then st
  else if r.type = TYPE_AAAA ∧ cfg.analyze_AAAA = false then st
  else if r.status < QUERY_UNKNOWN ∨ QUERY_EXTERNAL_BLOCKED_NXRA < r.status then st
  else if r.domain = none then st
  else if r.client = none then st
  else if cfg.ignore_localhost = true ∧
          (r.client = some "127.0.0.1" ∨ r.client = some "::1") then st
  else if r.status = QUERY_FORWARDED ∧ r.forward = none then st
  else importInsert cb st r

/-- The observable outcome of one read_data_from_DB call. -/
structure ReadOutcome where
  state : FTLState
  opened : Bool
deriving DecidableEq

/-- read_data_from_DB (src/database.c:690).  Returns immediately when the
privacy level is PRIVACY_NOSTATS or stricter.  Otherwise selects all rows
with `timestamp >= now - maxlogage` in store order, runs the validation
and import loop over them, and finally sets `lastdbindex` to the new end
of the in-memory log so the next save_to_DB skips the imported rows. -/
def read_data_from_DB (cfg : Config) (now : Int) (cb : Collab)
    (st : FTLState) : ReadOutcome :=
  if PRIVACY_NOSTATS ≤ cfg.privacylevel then ⟨st, false⟩
  else
    let rows := st.dbRows.filter (fun r => decide (now - cfg.maxlogage ≤ r.timestamp))
    let st1 := rows.foldl (importRow cfg now cb) st
    ⟨{ st1 with lastdbindex := (st1.queries.length : Int) }, true⟩

/-! ### Repeated flushes -/

/-- Several consecutive save_to_DB calls, each with its own wall-clock
time and per-row step outcomes. -/
def runFlushes (cfg : Config) (fwd : Nat → String) :
    List (Int × (Nat → Bool)) → FTLState → FTLState
  | [], st => st
  | p :: ps, st =>
      runFlushes cfg fwd ps (save_to_DB cfg p.1 p.2 fwd st).state

/-- The per-flush deltas actually added to the total-queries counter entry
by a sequence of flushes (0 for a flush that saved no row). -/
def flushTotalDeltas (cfg : Config) (fwd : Nat → String) :
    List (Int × (Nat → Bool)) → FTLState → List Int
  | [], _ => []
  | p :: ps, st =>
      let o := save_to_DB cfg p.1 p.2 fwd st
      (if 0 < o.saved then o.total else 0) :: flushTotalDeltas cfg fwd ps o.state

/-- The per-flush deltas actually added to the total-blocked counter entry
by a sequence of flushes. -/
def flushBlockedDeltas (cfg : Config) (fwd : Nat → String) :
    List (Int × (Nat → Bool)) → FTLState → List Int
  | [], _ => []
  | p :: ps, st =>
      let o := save_to_DB cfg p.1 p.2 fwd st
      (if 0 < o.saved then o.blocked else 0) :: flushBlockedDeltas cfg fwd ps o.state


/-! ### Basic loop lemmas -/

theorem foldl_max_le_init (rows : List DBRow) :
    ∀ a : Int, a ≤ rows.foldl (fun x r => max x r.id) a := by
  induction rows with
  | nil => intro a; exact le_refl a
  | cons r rows ih =>
    intro a
    exact le_trans (le_max_left a r.id) (ih (max a r.id))

theorem lastIDinDB_nonneg (rows : List DBRow) : 0 ≤ lastIDinDB rows :=
  foldl_max_le_init rows 0

theorem saveLoop_length (now : Int) (stepOk : Nat → Bool) (fwd : Nat → String) :
    ∀ (n : Nat) (s : ScanState),
      (saveLoop now stepOk fwd n s).queries.length = s.queries.length := by
  intro n
  induction n with
  | zero => intro s; rfl
  | succ n ih =>
    intro s
    rw [saveLoop]
    cases hq : s.queries[s.i]? with
    | none => rfl
    | some q =>
      dsimp only
      split_ifs
      all_goals first
        | rfl
        | exact ih { s with i := s.i + 1 }
        | exact ih { errorStep s q with i := s.i + 1 }
        | (rw [ih]; simp [insertStep])

theorem saveLoop_i_le (now : Int) (stepOk : Nat → Bool) (fwd : Nat → String) :
    ∀ (n : Nat) (s : ScanState), s.i ≤ (saveLoop now stepOk fwd n s).i := by
  intro n
  induction n with
  | zero => intro s; exact le_refl _
  | succ n ih =>
    intro s
    rw [saveLoop]
    cases hq : s.queries[s.i]? with
    | none => exact le_refl _
    | some qi =>
      dsimp only
      split_ifs
      all_goals first
        | exact le_refl _
        | exact le_trans (Nat.le_succ s.i) (ih { s with i := s.i + 1 })
        | exact le_trans (Nat.le_succ s.i) (ih { errorStep s qi with i := s.i + 1 })
        | exact le_trans (Nat.le_succ s.i) (ih (insertStep fwd s qi))

theorem saveLoop_db_frozen (now : Int) (stepOk : Nat → Bool) (fwd : Nat → String) :
    ∀ (n : Nat) (s : ScanState) (j : Nat) (q : Query),
      s.queries[j]? = some q → q.db ≠ 0 →
      (saveLoop now stepOk fwd n s).queries[j]? = some q := by
  intro n
  induction n with
  | zero => intro s j q hj _; exact hj
  | succ n ih =>
    intro s j q hj hdb
    rw [saveLoop]
    cases hq : s.queries[s.i]? with
    | none => exact hj
    | some qi =>
      dsimp only
      by_cases h1 : qi.db ≠ 0
      · rw [if_pos h1]; exact ih _ j q hj hdb
      · rw [if_neg h1]
        by_cases h2 : qi.complete = false ∧ qi.timestamp > now - 2
        · rw [if_pos h2]; exact hj
        · rw [if_neg h2]
          by_cases h3 : PRIVACY_MAXIMUM ≤ qi.privacylevel
          · rw [if_pos h3]; exact ih _ j q hj hdb
          · rw [if_neg h3]
            by_cases h4 : stepOk s.i = false
            · rw [if_pos h4]
              by_cases h5 : s.saved_error + 1 < 3
              · rw [if_pos h5]; exact ih _ j q hj hdb
              · rw [if_neg h5]; exact hj
            · rw [if_neg h4]
              apply ih
              · show (s.queries.set s.i _)[j]? = some q
                by_cases hji : j = s.i
                · exfalso
                  apply h1
                  subst hji
                  rw [hj] at hq
                  cases hq
                  exact hdb
                · rw [List.getElem?_set_ne (Ne.symm hji)]
                  exact hj
              · exact hdb

theorem saveLoop_priv_frozen (now : Int) (stepOk : Nat → Bool) (fwd : Nat → String) :
    ∀ (n : Nat) (s : ScanState) (j : Nat) (q : Query),
      s.queries[j]? = some q → PRIVACY_MAXIMUM ≤ q.privacylevel →
      (saveLoop now stepOk fwd n s).queries[j]? = some q := by
  intro n
  induction n with
  | zero => intro s j q hj _; exact hj
  | succ n ih =>
    intro s j q hj hpr
    rw [saveLoop]
    cases hq : s.queries[s.i]? with
    | none => exact hj
    | some qi =>
      dsimp only
      by_cases h1 : qi.db ≠ 0
      · rw [if_pos h1]; exact ih _ j q hj hpr
      · rw [if_neg h1]
        by_cases h2 : qi.complete = false ∧ qi.timestamp > now - 2
        · rw [if_pos h2]; exact hj
        · rw [if_neg h2]
          by_cases h3 : PRIVACY_MAXIMUM ≤ qi.privacylevel
          · rw [if_pos h3]; exact ih _ j q hj hpr
          · rw [if_neg h3]
            by_cases h4 : stepOk s.i = false
            · rw [if_pos h4]
              by_cases h5 : s.saved_error + 1 < 3
              · rw [if_pos h5]; exact ih _ j q hj hpr
              · rw [if_neg h5]; exact hj
            · rw [if_neg h4]
              apply ih
              · show (s.queries.set s.i _)[j]? = some q
                by_cases hji : j = s.i
                · exfalso
                  apply h3
                  subst hji
                  rw [hj] at hq
                  cases hq
                  exact hpr
                · rw [List.getElem?_set_ne (Ne.symm hji)]
                  exact hj
              · exact hpr

/-- The persisted-marker discipline of one scan: a record is either left
untouched or has exactly its marker changed, from 0 to a non-zero durable
identifier. -/
def markedOnce (q q' : Query) : Prop :=
  q' = q ∨ (q.db = 0 ∧ q'.db ≠ 0 ∧ q' = { q with db := q'.db })

theorem markedOnce_trans (q q' q'' : Query) :
    markedOnce q q' → markedOnce q' q'' → markedOnce q q'' := by
  intro h1 h2
  rcases h1 with h1 | ⟨hz, hnz, he⟩
  · subst h1; exact h2
  · rcases h2 with h2 | ⟨hz', _, _⟩
    · subst h2; exact Or.inr ⟨hz, hnz, he⟩
    · exact absurd hz' hnz

theorem saveLoop_marked (now : Int) (stepOk : Nat → Bool) (fwd : Nat → String) :
    ∀ (n : Nat) (s : ScanState), 0 ≤ s.lastID →
      ∀ (j : Nat) (q : Query), s.queries[j]? = some q →
      ∃ q', (saveLoop now stepOk fwd n s).queries[j]? = some q' ∧ markedOnce q q' := by
  intro n
  induction n with
  | zero => intro s _ j q hj; exact ⟨q, hj, Or.inl rfl⟩
  | succ n ih =>
    intro s hlast j q hj
    rw [saveLoop]
    cases hq : s.queries[s.i]? with
    | none => exact ⟨q, hj, Or.inl rfl⟩
    | some qi =>
      dsimp only
      by_cases h1 : qi.db ≠ 0
      · rw [if_pos h1]
        apply ih
        · exact hlast
        · exact hj
      · rw [if_neg h1]
        by_cases h2 : qi.complete = false ∧ qi.timestamp > now - 2
        · rw [if_pos h2]; exact ⟨q, hj, Or.inl rfl⟩
        · rw [if_neg h2]
          by_cases h3 : PRIVACY_MAXIMUM ≤ qi.privacylevel
          · rw [if_pos h3]
            apply ih
            · exact hlast
            · exact hj
          · rw [if_neg h3]
            by_cases h4 : stepOk s.i = false
            · rw [if_pos h4]
              by_cases h5 : s.saved_error + 1 < 3
              · rw [if_pos h5]
                apply ih
                · exact hlast
                · exact hj
              · rw [if_neg h5]; exact ⟨q, hj, Or.inl rfl⟩
            · rw [if_neg h4]
              by_cases hji : j = s.i
              · have hq2 : some q = some qi := by rw [← hj, hji, hq]
                have hqq : q = qi := Option.some.inj hq2
                have hdb0 : q.db = 0 := by rw [hqq]; exact not_not.mp h1
                have hlt : s.i < s.queries.length := by
                  rcases List.getElem?_eq_some_iff.mp hq with ⟨hl, _⟩
                  exact hl
                have hrec : ∃ q',
                    (saveLoop now stepOk fwd n (insertStep fwd s qi)).queries[j]? = some q' ∧
                    markedOnce { qi with db := s.lastID + 1 } q' := by
                  apply ih
                  · show (0 : Int) ≤ s.lastID + 1
                    omega
                  · show (s.queries.set s.i { qi with db := s.lastID + 1 })[j]? = _
                    rw [hji]
                    exact List.getElem?_set_self (by simpa using hlt)
                obtain ⟨q', hq', hrel⟩ := hrec
                refine ⟨q', hq', ?_⟩
                rcases hrel with hrel | ⟨hz, _, _⟩
                · subst hrel
                  refine Or.inr ⟨hdb0, ?_, ?_⟩
                  · show s.lastID + 1 ≠ 0
                    omega
                  · rw [hqq]
                · exfalso
                  have hz2 : s.lastID + 1 = 0 := hz
                  omega
              · have hrec : ∃ q',
                    (saveLoop now stepOk fwd n (insertStep fwd s qi)).queries[j]? = some q' ∧
                    markedOnce q q' := by
                  apply ih
                  · show (0 : Int) ≤ s.lastID + 1
                    omega
                  · show (s.queries.set s.i { qi with db := s.lastID + 1 })[j]? = some q
                    rw [List.getElem?_set_ne (Ne.symm hji)]
                    exact hj
                exact hrec

theorem saveLoop_dbRows_append (now : Int) (stepOk : Nat → Bool) (fwd : Nat → String) :
    ∀ (n : Nat) (s : ScanState),
      ∃ t, (saveLoop now stepOk fwd n s).dbRows = s.dbRows ++ t ∧
        (saveLoop now stepOk fwd n s).saved = s.saved + t.length := by
  intro n
  induction n with
  | zero => intro s; exact ⟨[], (List.append_nil _).symm, rfl⟩
  | succ n ih =>
    intro s
    rw [saveLoop]
    cases hq : s.queries[s.i]? with
    | none => exact ⟨[], (List.append_nil _).symm, rfl⟩
    | some q =>
      dsimp only
      split_ifs
      all_goals first
        | exact ⟨[], (List.append_nil _).symm, rfl⟩
        | exact ih { s with i := s.i + 1 }
        | exact ih { errorStep s q with i := s.i + 1 }
        | (obtain ⟨t, h1, h2⟩ := ih (insertStep fwd s q)
           refine ⟨⟨s.lastID + 1, q.timestamp, q.type, q.status, some q.domain,
             some q.client, bindForward fwd q⟩ :: t, ?_, ?_⟩
           · rw [h1]; simp [insertStep]
           · rw [h2]; simp only [insertStep, List.length_cons]; omega)

theorem saveLoop_error_le (now : Int) (stepOk : Nat → Bool) (fwd : Nat → String) :
    ∀ (n : Nat) (s : ScanState), s.saved_error < 3 →
      (saveLoop now stepOk fwd n s).saved_error ≤ 3 := by
  intro n
  induction n with
  | zero => intro s h; exact Nat.le_of_lt h
  | succ n ih =>
    intro s h
    rw [saveLoop]
    cases hq : s.queries[s.i]? with
    | none => exact Nat.le_of_lt h
    | some q =>
      dsimp only
      split_ifs with hdb hy hpr hstep herr
      · exact ih { s with i := s.i + 1 } h
      · exact Nat.le_of_lt h
      · exact ih { s with i := s.i + 1 } h
      · exact ih { errorStep s q with i := s.i + 1 } herr
      · show s.saved_error + 1 ≤ 3
        omega
      · exact ih (insertStep fwd s q) h

theorem saveLoop_total_eq_saved (now : Int) (stepOk : Nat → Bool) (fwd : Nat → String) :
    ∀ (n : Nat) (s : ScanState), s.total = (s.saved : Int) →
      (saveLoop now stepOk fwd n s).total =
        ((saveLoop now stepOk fwd n s).saved : Int) := by
  intro n
  induction n with
  | zero => intro s h; exact h
  | succ n ih =>
    intro s h
    rw [saveLoop]
    cases hq : s.queries[s.i]? with
    | none => exact h
    | some q =>
      dsimp only
      split_ifs
      all_goals first
        | exact h
        | exact ih { s with i := s.i + 1 } h
        | exact ih { errorStep s q with i := s.i + 1 } h
        | exact ih (insertStep fwd s q)
            (by simp only [insertStep]; push_cast; omega)

theorem saveLoop_total_mono (now : Int) (stepOk : Nat → Bool) (fwd : Nat → String) :
    ∀ (n : Nat) (s : ScanState), s.total ≤ (saveLoop now stepOk fwd n s).total := by
  intro n
  induction n with
  | zero => intro s; exact le_refl _
  | succ n ih =>
    intro s
    rw [saveLoop]
    cases hq : s.queries[s.i]? with
    | none => exact le_refl _
    | some q =>
      dsimp only
      split_ifs
      all_goals first
        | exact le_refl _
        | exact ih { s with i := s.i + 1 }
        | exact ih { errorStep s q with i := s.i + 1 }
        | exact le_trans (by show s.total ≤ s.total + 1; omega)
            (ih (insertStep fwd s q))

theorem saveLoop_blocked_mono (now : Int) (stepOk : Nat → Bool) (fwd : Nat → String) :
    ∀ (n : Nat) (s : ScanState), s.blocked ≤ (saveLoop now stepOk fwd n s).blocked := by
  intro n
  induction n with
  | zero => intro s; exact le_refl _
  | succ n ih =>
    intro s
    rw [saveLoop]
    cases hq : s.queries[s.i]? with
    | none => exact le_refl _
    | some q =>
      dsimp only
      split_ifs
      all_goals first
        | exact le_refl _
        | exact ih { s with i := s.i + 1 }
        | exact ih { errorStep s q with i := s.i + 1 }
        | exact le_trans
            (by show s.blocked ≤ s.blocked + (if blockedStatus q.status then 1 else 0)
                split_ifs <;> omega)
            (ih (insertStep fwd s q))

theorem saveLoop_blocked_le_total (now : Int) (stepOk : Nat → Bool) (fwd : Nat → String) :
    ∀ (n : Nat) (s : ScanState), s.blocked ≤ s.total →
      (saveLoop now stepOk fwd n s).blocked ≤ (saveLoop now stepOk fwd n s).total := by
  intro n
  induction n with
  | zero => intro s h; exact h
  | succ n ih =>
    intro s h
    rw [saveLoop]
    cases hq : s.queries[s.i]? with
    | none => exact h
    | some q =>
      dsimp only
      split_ifs
      all_goals first
        | exact h
        | exact ih { s with i := s.i + 1 } h
        | exact ih { errorStep s q with i := s.i + 1 } h
        | exact ih (insertStep fwd s q)
            (by simp only [insertStep]
                split_ifs <;> omega)

theorem refScan_set (now : Int) (qs : List Query) (k : Nat) (x : Query) :
    ∀ (n : Nat) (i : Nat) (m : Int), k < i →
      refScan now (qs.set k x) n i m = refScan now qs n i m := by
  intro n
  induction n with
  | zero => intro i m _; rfl
  | succ n ih =>
    intro i m hk
    rw [refScan, refScan, List.getElem?_set_ne (Nat.ne_of_lt hk)]
    cases hq : qs[i]? with
    | none => rfl
    | some q =>
      dsimp only
      split_ifs
      all_goals first
        | rfl
        | exact ih (i+1) m (Nat.lt_succ_of_lt hk)
        | rw [ih (i+1) _ (Nat.lt_succ_of_lt hk)]

theorem saveLoop_refScan (now : Int) (stepOk : Nat → Bool) (fwd : Nat → String)
    (hstep : ∀ k, stepOk k = true) :
    ∀ (n : Nat) (s : ScanState),
      (saveLoop now stepOk fwd n s).i =
        (refScan now s.queries n s.i s.newlasttimestamp).stop ∧
      (saveLoop now stepOk fwd n s).saved =
        s.saved + (refScan now s.queries n s.i s.newlasttimestamp).cnt ∧
      (saveLoop now stepOk fwd n s).total =
        s.total + ((refScan now s.queries n s.i s.newlasttimestamp).cnt : Int) ∧
      (saveLoop now stepOk fwd n s).blocked =
        s.blocked + (refScan now s.queries n s.i s.newlasttimestamp).blockedCnt ∧
      (saveLoop now stepOk fwd n s).newlasttimestamp =
        (refScan now s.queries n s.i s.newlasttimestamp).maxTs ∧
      (saveLoop now stepOk fwd n s).saved_error = s.saved_error ∧
      (saveLoop now stepOk fwd n s).dbRows.length =
        s.dbRows.length + (refScan now s.queries n s.i s.newlasttimestamp).cnt := by
  intro n
  induction n with
  | zero =>
    intro s
    exact ⟨rfl, rfl, (add_zero _).symm, (add_zero _).symm, rfl, rfl, rfl⟩
  | succ n ih =>
    intro s
    rw [saveLoop, refScan]
    cases hq : s.queries[s.i]? with
    | none => exact ⟨rfl, rfl, (add_zero _).symm, (add_zero _).symm, rfl, rfl, rfl⟩
    | some q =>
      dsimp only
      by_cases h1 : q.db ≠ 0
      · rw [if_pos h1, if_pos h1]
        exact ih { s with i := s.i + 1 }
      · rw [if_neg h1, if_neg h1]
        by_cases h2 : q.complete = false ∧ q.timestamp > now - 2
        · rw [if_pos h2, if_pos h2]
          exact ⟨rfl, rfl, (add_zero _).symm, (add_zero _).symm, rfl, rfl, rfl⟩
        · rw [if_neg h2, if_neg h2]
          by_cases h3 : PRIVACY_MAXIMUM ≤ q.privacylevel
          · rw [if_pos h3, if_pos h3]
            exact ih { s with i := s.i + 1 }
          · rw [if_neg h3, if_neg h3]
            rw [if_neg (by simp [hstep s.i] : ¬stepOk s.i = false)]
            have hIH := ih (insertStep fwd s q)
            have hqs : (insertStep fwd s q).queries =
                s.queries.set s.i { q with db := s.lastID + 1 } := rfl
            have hii : (insertStep fwd s q).i = s.i + 1 := rfl
            have hm : (insertStep fwd s q).newlasttimestamp =
                (if q.timestamp > s.newlasttimestamp then q.timestamp
                 else s.newlasttimestamp) := rfl
            have hsv0 : (insertStep fwd s q).saved = s.saved + 1 := rfl
            have htot0 : (insertStep fwd s q).total = s.total + 1 := rfl
            have hbl0 : (insertStep fwd s q).blocked =
                s.blocked + (if blockedStatus q.status then 1 else 0) := rfl
            have herr0 : (insertStep fwd s q).saved_error = s.saved_error := rfl
            have hrows0 : (insertStep fwd s q).dbRows.length = s.dbRows.length + 1 := by
              simp [insertStep]
            rw [hqs, hii, hm, hsv0, htot0, hbl0, herr0, hrows0] at hIH
            rw [refScan_set now s.queries s.i { q with db := s.lastID + 1 } n
              (s.i + 1) _ (Nat.lt_succ_self s.i)] at hIH
            obtain ⟨hi, hsv, htot, hbl, hts, herr, hlen⟩ := hIH
            dsimp only
            refine ⟨hi, ?_, ?_, ?_, hts, herr, ?_⟩
            · rw [hsv]; omega
            · rw [htot]; push_cast; omega
            · rw [hbl]; omega
            · rw [hlen]; omega

theorem saveLoop_frame_high (now : Int) (stepOk : Nat → Bool) (fwd : Nat → String) :
    ∀ (n : Nat) (s : ScanState) (j : Nat),
      (saveLoop now stepOk fwd n s).i ≤ j →
      (saveLoop now stepOk fwd n s).queries[j]? = s.queries[j]? := by
  intro n
  induction n with
  | zero => intro s j _; rfl
  | succ n ih =>
    intro s j
    rw [saveLoop]
    cases hq : s.queries[s.i]? with
    | none => intro _; rfl
    | some q =>
      dsimp only
      by_cases h1 : q.db ≠ 0
      · rw [if_pos h1]; intro h; exact ih _ j h
      · rw [if_neg h1]
        by_cases h2 : q.complete = false ∧ q.timestamp > now - 2
        · rw [if_pos h2]; intro _; rfl
        · rw [if_neg h2]
          by_cases h3 : PRIVACY_MAXIMUM ≤ q.privacylevel
          · rw [if_pos h3]; intro h; exact ih _ j h
          · rw [if_neg h3]
            by_cases h4 : stepOk s.i = false
            · rw [if_pos h4]
              by_cases h5 : s.saved_error + 1 < 3
              · rw [if_pos h5]; intro h; exact ih _ j h
              · rw [if_neg h5]; intro _; rfl
            · rw [if_neg h4]
              intro h
              have hij : s.i + 1 ≤ (saveLoop now stepOk fwd n (insertStep fwd s q)).i :=
                saveLoop_i_le now stepOk fwd n (insertStep fwd s q)
              have hji : s.i ≠ j := by omega
              rw [ih (insertStep fwd s q) j h]
              show (s.queries.set s.i { q with db := s.lastID + 1 })[j]? = s.queries[j]?
              exact List.getElem?_set_ne hji

theorem saveLoop_inserted (now : Int) (stepOk : Nat → Bool) (fwd : Nat → String)
    (hstep : ∀ k, stepOk k = true) :
    ∀ (n : Nat) (s : ScanState), 0 ≤ s.lastID →
      ∀ (j : Nat) (q : Query), s.queries[j]? = some q →
      s.i ≤ j → j < (saveLoop now stepOk fwd n s).i →
      q.db = 0 → q.privacylevel < PRIVACY_MAXIMUM →
      ∃ d, 0 < d ∧
        (saveLoop now stepOk fwd n s).queries[j]? = some { q with db := d } ∧
        (⟨d, q.timestamp, q.type, q.status, some q.domain, some q.client,
          bindForward fwd q⟩ : DBRow) ∈ (saveLoop now stepOk fwd n s).dbRows := by
  intro n
  induction n with
  | zero =>
    intro s hlast j q
    rw [saveLoop]
    intro _ hij hstop _ _
    omega
  | succ n ih =>
    intro s hlast j q
    rw [saveLoop]
    cases hq : s.queries[s.i]? with
    | none =>
      dsimp only
      intro _ hij hstop _ _
      omega
    | some qi =>
      dsimp only
      by_cases h1 : qi.db ≠ 0
      · rw [if_pos h1]
        intro hj hij hstop hdb hpr
        by_cases hji : j = s.i
        · exfalso
          apply h1
          have hq2 : some q = some qi := by rw [← hj, hji, hq]
          rw [← Option.some.inj hq2]
          simp [hdb]
        · exact ih { s with i := s.i + 1 } hlast j q hj
            (by show s.i + 1 ≤ j; omega) hstop hdb hpr
      · rw [if_neg h1]
        by_cases h2 : qi.complete = false ∧ qi.timestamp > now - 2
        · rw [if_pos h2]
          intro _ hij hstop _ _
          omega
        · rw [if_neg h2]
          by_cases h3 : PRIVACY_MAXIMUM ≤ qi.privacylevel
          · rw [if_pos h3]
            intro hj hij hstop hdb hpr
            by_cases hji : j = s.i
            · exfalso
              have hq2 : some q = some qi := by rw [← hj, hji, hq]
              rw [← Option.some.inj hq2] at h3
              omega
            · exact ih { s with i := s.i + 1 } hlast j q hj
                (by show s.i + 1 ≤ j; omega) hstop hdb hpr
          · rw [if_neg h3]
            rw [if_neg (by simp [hstep s.i] : ¬stepOk s.i = false)]
            intro hj hij hstop hdb hpr
            by_cases hji : j = s.i
            · have hq2 : some q = some qi := by rw [← hj, hji, hq]
              have hqq : q = qi := Option.some.inj hq2
              subst hqq
              have hlt : s.i < s.queries.length := by
                rcases List.getElem?_eq_some_iff.mp hq with ⟨hl, _⟩
                exact hl
              refine ⟨s.lastID + 1, by omega, ?_, ?_⟩
              · apply saveLoop_db_frozen
                · show (s.queries.set s.i { q with db := s.lastID + 1 })[j]? = _
                  rw [hji]
                  exact List.getElem?_set_self (by simpa using hlt)
                · show s.lastID + 1 ≠ 0
                  omega
              · obtain ⟨t, ht, _⟩ :=
                  saveLoop_dbRows_append now stepOk fwd n (insertStep fwd s q)
                rw [ht]
                show _ ∈ (s.dbRows ++
                  [(⟨s.lastID + 1, q.timestamp, q.type, q.status, some q.domain,
                    some q.client, bindForward fwd q⟩ : DBRow)]) ++ t
                simp
            · refine ih (insertStep fwd s qi) (by show (0:Int) ≤ s.lastID + 1; omega)
                j q ?_ (by show s.i + 1 ≤ j; omega) hstop hdb hpr
              show (s.queries.set s.i { qi with db := s.lastID + 1 })[j]? = some q
              rw [List.getElem?_set_ne (Ne.symm hji)]
              exact hj

/-! ### Lifting the scan to save_to_DB -/

theorem save_to_DB_gated (cfg : Config) (now : Int) (stepOk : Nat → Bool)
    (fwd : Nat → String) (st : FTLState)
    (hpriv : PRIVACY_NOSTATS ≤ cfg.privacylevel) :
    save_to_DB cfg now stepOk fwd st = ⟨st, [], 0, 0, 0, 0, false⟩ := by
  simp only [save_to_DB, if_pos hpriv]

theorem save_to_DB_queries (cfg : Config) (now : Int) (stepOk : Nat → Bool)
    (fwd : Nat → String) (st : FTLState)
    (hpriv : ¬ PRIVACY_NOSTATS ≤ cfg.privacylevel) :
    (save_to_DB cfg now stepOk fwd st).state.queries =
      (save_scan now stepOk fwd st).queries := by
  simp only [save_to_DB, if_neg hpriv]
  split_ifs <;> rfl

theorem save_to_DB_dbRows (cfg : Config) (now : Int) (stepOk : Nat → Bool)
    (fwd : Nat → String) (st : FTLState)
    (hpriv : ¬ PRIVACY_NOSTATS ≤ cfg.privacylevel) :
    (save_to_DB cfg now stepOk fwd st).state.dbRows =
      (save_scan now stepOk fwd st).dbRows := by
  simp only [save_to_DB, if_neg hpriv]
  split_ifs <;> rfl

theorem save_to_DB_saved (cfg : Config) (now : Int) (stepOk : Nat → Bool)
    (fwd : Nat → String) (st : FTLState)
    (hpriv : ¬ PRIVACY_NOSTATS ≤ cfg.privacylevel) :
    (save_to_DB cfg now stepOk fwd st).saved = (save_scan now stepOk fwd st).saved := by
  simp only [save_to_DB, if_neg hpriv]

theorem save_to_DB_saved_error (cfg : Config) (now : Int) (stepOk : Nat → Bool)
    (fwd : Nat → String) (st : FTLState)
    (hpriv : ¬ PRIVACY_NOSTATS ≤ cfg.privacylevel) :
    (save_to_DB cfg now stepOk fwd st).saved_error =
      (save_scan now stepOk fwd st).saved_error := by
  simp only [save_to_DB, if_neg hpriv]

theorem save_to_DB_total (cfg : Config) (now : Int) (stepOk : Nat → Bool)
    (fwd : Nat → String) (st : FTLState)
    (hpriv : ¬ PRIVACY_NOSTATS ≤ cfg.privacylevel) :
    (save_to_DB cfg now stepOk fwd st).total = (save_scan now stepOk fwd st).total := by
  simp only [save_to_DB, if_neg hpriv]

theorem save_to_DB_blocked (cfg : Config) (now : Int) (stepOk : Nat → Bool)
    (fwd : Nat → String) (st : FTLState)
    (hpriv : ¬ PRIVACY_NOSTATS ≤ cfg.privacylevel) :
    (save_to_DB cfg now stepOk fwd st).blocked = (save_scan now stepOk fwd st).blocked := by
  simp only [save_to_DB, if_neg hpriv]

theorem save_to_DB_netEvents (cfg : Config) (now : Int) (stepOk : Nat → Bool)
    (fwd : Nat → String) (st : FTLState)
    (hpriv : ¬ PRIVACY_NOSTATS ≤ cfg.privacylevel) :
    (save_to_DB cfg now stepOk fwd st).netEvents =
      (save_scan now stepOk fwd st).netEvents := by
  simp only [save_to_DB, if_neg hpriv]

theorem save_to_DB_lastdbindex (cfg : Config) (now : Int) (stepOk : Nat → Bool)
    (fwd : Nat → String) (st : FTLState)
    (hpriv : ¬ PRIVACY_NOSTATS ≤ cfg.privacylevel) :
    (save_to_DB cfg now stepOk fwd st).state.lastdbindex =
      (if 0 < (save_scan now stepOk fwd st).saved ∧
          (save_scan now stepOk fwd st).saved_error = 0
       then ((save_scan now stepOk fwd st).i : Int)
       else st.lastdbindex) := by
  simp only [save_to_DB, if_neg hpriv]
  split_ifs <;> rfl

theorem save_to_DB_lastTimestamp (cfg : Config) (now : Int) (stepOk : Nat → Bool)
    (fwd : Nat → String) (st : FTLState)
    (hpriv : ¬ PRIVACY_NOSTATS ≤ cfg.privacylevel) :
    (save_to_DB cfg now stepOk fwd st).state.lastTimestamp =
      (if 0 < (save_scan now stepOk fwd st).saved ∧
          (save_scan now stepOk fwd st).saved_error = 0
       then (save_scan now stepOk fwd st).newlasttimestamp
       else st.lastTimestamp) := by
  simp only [save_to_DB, if_neg hpriv]
  split_ifs <;> rfl

theorem save_to_DB_dbTotal (cfg : Config) (now : Int) (stepOk : Nat → Bool)
    (fwd : Nat → String) (st : FTLState) :
    (save_to_DB cfg now stepOk fwd st).state.dbTotal =
      st.dbTotal + (if 0 < (save_to_DB cfg now stepOk fwd st).saved
                    then (save_to_DB cfg now stepOk fwd st).total else 0) := by
  simp only [save_to_DB]
  split_ifs <;> first | rfl | simp

theorem save_to_DB_dbBlocked (cfg : Config) (now : Int) (stepOk : Nat → Bool)
    (fwd : Nat → String) (st : FTLState) :
    (save_to_DB cfg now stepOk fwd st).state.dbBlocked =
      st.dbBlocked + (if 0 < (save_to_DB cfg now stepOk fwd st).saved
                      then (save_to_DB cfg now stepOk fwd st).blocked else 0) := by
  simp only [save_to_DB]
  split_ifs <;> first | rfl | simp

theorem save_to_DB_total_nonneg (cfg : Config) (now : Int) (stepOk : Nat → Bool)
    (fwd : Nat → String) (st : FTLState) :
    0 ≤ (save_to_DB cfg now stepOk fwd st).total := by
  by_cases hpriv : PRIVACY_NOSTATS ≤ cfg.privacylevel
  · rw [save_to_DB_gated cfg now stepOk fwd st hpriv]
  · rw [save_to_DB_total cfg now stepOk fwd st hpriv]
    exact saveLoop_total_mono now stepOk fwd _ _

theorem save_to_DB_blocked_nonneg (cfg : Config) (now : Int) (stepOk : Nat → Bool)
    (fwd : Nat → String) (st : FTLState) :
    0 ≤ (save_to_DB cfg now stepOk fwd st).blocked := by
  by_cases hpriv : PRIVACY_NOSTATS ≤ cfg.privacylevel
  · rw [save_to_DB_gated cfg now stepOk fwd st hpriv]
  · rw [save_to_DB_blocked cfg now stepOk fwd st hpriv]
    exact saveLoop_blocked_mono now stepOk fwd _ _

/-! ### Importer lemmas -/

theorem importRow_eq (cfg : Config) (now : Int) (cb : Collab)
    (st : FTLState) (r : DBRow) :
    importRow cfg now cb st r = st ∨
    importRow cfg now cb st r = importInsert cb st r := by
  rw [importRow]
  by_cases c1 : r.timestamp < 1483228800
  · rw [if_pos c1]; exact Or.inl rfl
  rw [if_neg c1]
  by_cases c2 : r.timestamp > now
  · rw [if_pos c2]; exact Or.inl rfl
  rw [if_neg c2]
  by_cases c3 : r.type < TYPE_A ∨ TYPE_MAX ≤ r.type
  · rw [if_pos c3]; exact Or.inl rfl
  rw [if_neg c3]
  by_cases c4 : r.type = TYPE_AAAA ∧ cfg.analyze_AAAA = false
  · rw [if_pos c4]; exact Or.inl rfl
  rw [if_neg c4]
  by_cases c5 : r.status < QUERY_UNKNOWN ∨ QUERY_EXTERNAL_BLOCKED_NXRA < r.status
  · rw [if_pos c5]; exact Or.inl rfl
  rw [if_neg c5]
  by_cases c6 : r.domain = none
  · rw [if_pos c6]; exact Or.inl rfl
  rw [if_neg c6]
  by_cases c7 : r.client = none
  · rw [if_pos c7]; exact Or.inl rfl
  rw [if_neg c7]
  by_cases c8 : cfg.ignore_localhost = true ∧
      (r.client = some "127.0.0.1" ∨ r.client = some "::1")
  · rw [if_pos c8]; exact Or.inl rfl
  rw [if_neg c8]
  by_cases c9 : r.status = QUERY_FORWARDED ∧ r.forward = none
  · rw [if_pos c9]; exact Or.inl rfl
  rw [if_neg c9]
  exact Or.inr rfl

theorem importRow_cases (cfg : Config) (now : Int) (cb : Collab)
    (st : FTLState) (r : DBRow) :
    importRow cfg now cb st r = st ∨
    ∃ q, (importRow cfg now cb st r).queries = st.queries ++ [q] ∧
      q.complete = true ∧ q.db = r.id := by
  rcases importRow_eq cfg now cb st r with h | h
  · exact Or.inl h
  · rw [h]
    exact Or.inr ⟨importQuery cb r, rfl, rfl, rfl⟩

theorem importRow_dbRows (cfg : Config) (now : Int) (cb : Collab)
    (st : FTLState) (r : DBRow) :
    (importRow cfg now cb st r).dbRows = st.dbRows := by
  rcases importRow_eq cfg now cb st r with h | h <;> rw [h]
  rfl

theorem importFold_dbRows (cfg : Config) (now : Int) (cb : Collab) :
    ∀ (rows : List DBRow) (st : FTLState),
      (rows.foldl (importRow cfg now cb) st).dbRows = st.dbRows := by
  intro rows
  induction rows with
  | nil => intro st; rfl
  | cons r rows ih =>
    intro st
    rw [List.foldl_cons, ih, importRow_dbRows]

theorem importFold_append (cfg : Config) (now : Int) (cb : Collab) :
    ∀ (rows : List DBRow) (st : FTLState),
      ∃ t, (rows.foldl (importRow cfg now cb) st).queries = st.queries ++ t ∧
        ∀ q ∈ t, q.complete = true ∧ ∃ rw, rw ∈ rows ∧ q.db = rw.id := by
  intro rows
  induction rows with
  | nil => intro st; exact ⟨[], by simp, by simp⟩
  | cons r rows ih =>
    intro st
    rw [List.foldl_cons]
    obtain ⟨t, ht, hall⟩ := ih (importRow cfg now cb st r)
    rcases importRow_cases cfg now cb st r with hcase | ⟨q, hq, hc, hdb⟩
    · refine ⟨t, ?_, ?_⟩
      · rw [ht, hcase]
      · intro q hq
        obtain ⟨h1, rw, h2, h3⟩ := hall q hq
        exact ⟨h1, rw, List.mem_cons_of_mem r h2, h3⟩
    · refine ⟨q :: t, ?_, ?_⟩
      · rw [ht, hq]
        simp
      · intro q' hq'
        rcases List.mem_cons.mp hq' with hq' | hq'
        · subst hq'
          exact ⟨hc, r, List.mem_cons_self r rows, hdb⟩
        · obtain ⟨h1, rw, h2, h3⟩ := hall q' hq'
          exact ⟨h1, rw, List.mem_cons_of_mem r h2, h3⟩

theorem read_data_from_DB_gated (cfg : Config) (now : Int) (cb : Collab)
    (st : FTLState) (hpriv : PRIVACY_NOSTATS ≤ cfg.privacylevel) :
    read_data_from_DB cfg now cb st = ⟨st, false⟩ := by
  simp only [read_data_from_DB, if_pos hpriv]

theorem read_data_from_DB_cursor (cfg : Config) (now : Int) (cb : Collab)
    (st : FTLState) (hpriv : ¬ PRIVACY_NOSTATS ≤ cfg.privacylevel) :
    (read_data_from_DB cfg now cb st).state.lastdbindex =
      ((read_data_from_DB cfg now cb st).state.queries.length : Int) := by
  simp only [read_data_from_DB, if_neg hpriv]

theorem read_data_from_DB_append (cfg : Config) (now : Int) (cb : Collab)
    (st : FTLState) (hpriv : ¬ PRIVACY_NOSTATS ≤ cfg.privacylevel) :
    ∃ t, (read_data_from_DB cfg now cb st).state.queries = st.queries ++ t ∧
      ∀ q ∈ t, q.complete = true ∧ ∃ rw, rw ∈ st.dbRows ∧ q.db = rw.id := by
  simp only [read_data_from_DB, if_neg hpriv]
  obtain ⟨t, ht, hall⟩ := importFold_append cfg now cb
    (st.dbRows.filter (fun r => decide (now - cfg.maxlogage ≤ r.timestamp))) st
  refine ⟨t, ht, ?_⟩
  intro q hq
  obtain ⟨h1, rw, h2, h3⟩ := hall q hq
  exact ⟨h1, rw, (List.mem_filter.mp h2).1, h3⟩

theorem read_data_from_DB_dbRows (cfg : Config) (now : Int) (cb : Collab)
    (st : FTLState) :
    (read_data_from_DB cfg now cb st).state.dbRows = st.dbRows := by
  by_cases hpriv : PRIVACY_NOSTATS ≤ cfg.privacylevel
  · rw [read_data_from_DB_gated cfg now cb st hpriv]
  · simp only [read_data_from_DB, if_neg hpriv]
    exact importFold_dbRows cfg now cb _ st

/-! ### A flush that starts at the end of the log is a no-op -/

theorem save_scan_at_end (now : Int) (stepOk : Nat → Bool) (fwd : Nat → String)
    (st : FTLState) (h : st.lastdbindex = (st.queries.length : Int)) :
    save_scan now stepOk fwd st =
      ⟨st.queries, st.dbRows, lastIDinDB st.dbRows, 0, 0, 0, 0, 0, [],
       st.queries.length⟩ := by
  unfold save_scan
  rw [h]
  have h1 : (max 0 ((st.queries.length : Int))).toNat = st.queries.length := by
    rw [max_eq_right (Int.natCast_nonneg _)]
    exact Int.toNat_natCast _
  rw [h1]
  dsimp only
  rw [Nat.sub_self]
  rfl

theorem refScan_stop_m (now : Int) (qs : List Query) :
    ∀ (n : Nat) (i : Nat) (m m' : Int),
      (refScan now qs n i m).stop = (refScan now qs n i m').stop := by
  intro n
  induction n with
  | zero => intro i m m'; rfl
  | succ n ih =>
    intro i m m'
    rw [refScan, refScan]
    cases hq : qs[i]? with
    | none => rfl
    | some q =>
      dsimp only
      split_ifs
      all_goals first
        | rfl
        | exact ih (i+1) m m'
        | exact ih (i+1) _ _

theorem saveLoop_complete_stop (now : Int) (stepOk : Nat → Bool) (fwd : Nat → String) :
    ∀ (n : Nat) (s : ScanState),
      (saveLoop now stepOk fwd n s).saved_error < 3 →
      (saveLoop now stepOk fwd n s).i =
        (refScan now s.queries n s.i s.newlasttimestamp).stop := by
  intro n
  induction n with
  | zero => intro s _; rfl
  | succ n ih =>
    intro s
    rw [saveLoop, refScan]
    cases hq : s.queries[s.i]? with
    | none => intro _; rfl
    | some q =>
      dsimp only
      by_cases h1 : q.db ≠ 0
      · rw [if_pos h1, if_pos h1]
        exact ih { s with i := s.i + 1 }
      · rw [if_neg h1, if_neg h1]
        by_cases h2 : q.complete = false ∧ q.timestamp > now - 2
        · rw [if_pos h2, if_pos h2]
          intro _; rfl
        · rw [if_neg h2, if_neg h2]
          by_cases h3 : PRIVACY_MAXIMUM ≤ q.privacylevel
          · rw [if_pos h3, if_pos h3]
            exact ih { s with i := s.i + 1 }
          · rw [if_neg h3, if_neg h3]
            by_cases h4 : stepOk s.i = false
            · rw [if_pos h4]
              by_cases h5 : s.saved_error + 1 < 3
              · rw [if_pos h5]
                intro herr
                rw [ih { errorStep s q with i := s.i + 1 } herr]
                show (refScan now s.queries n (s.i + 1) s.newlasttimestamp).stop = _
                dsimp only
                exact refScan_stop_m now s.queries n (s.i + 1) s.newlasttimestamp _
              · rw [if_neg h5]
                intro herr
                exact absurd herr h5
            · rw [if_neg h4]
              intro herr
              rw [ih (insertStep fwd s q) herr]
              have hqs : (insertStep fwd s q).queries =
                  s.queries.set s.i { q with db := s.lastID + 1 } := rfl
              have hii : (insertStep fwd s q).i = s.i + 1 := rfl
              have hm : (insertStep fwd s q).newlasttimestamp =
                  (if q.timestamp > s.newlasttimestamp then q.timestamp
                   else s.newlasttimestamp) := rfl
              rw [hqs, hii, hm]
              rw [refScan_set now s.queries s.i { q with db := s.lastID + 1 } n
                (s.i + 1) _ (Nat.lt_succ_self s.i)]

theorem save_to_DB_cursor_mono (cfg : Config) (now : Int) (stepOk : Nat → Bool)
    (fwd : Nat → String) (st : FTLState) :
    st.lastdbindex ≤ (save_to_DB cfg now stepOk fwd st).state.lastdbindex := by
  by_cases hpriv : PRIVACY_NOSTATS ≤ cfg.privacylevel
  · rw [save_to_DB_gated cfg now stepOk fwd st hpriv]
  · rw [save_to_DB_lastdbindex cfg now stepOk fwd st hpriv]
    split_ifs with h
    · have h1 : (max 0 st.lastdbindex).toNat ≤ (save_scan now stepOk fwd st).i := by
        unfold save_scan
        dsimp only
        exact saveLoop_i_le now stepOk fwd
          (st.queries.length - (max 0 st.lastdbindex).toNat)
          ⟨st.queries, st.dbRows, lastIDinDB st.dbRows, 0, 0, 0, 0, 0, [],
           (max 0 st.lastdbindex).toNat⟩
      have h3 : ((max 0 st.lastdbindex).toNat : Int) = max 0 st.lastdbindex :=
        Int.toNat_of_nonneg (le_max_left _ _)
      calc st.lastdbindex ≤ max 0 st.lastdbindex := le_max_right _ _
        _ = ((max 0 st.lastdbindex).toNat : Int) := h3.symm
        _ ≤ ((save_scan now stepOk fwd st).i : Int) := by exact_mod_cast h1
    · exact le_refl _

theorem countP_add_filter_not_length (p : DBRow → Bool) :
    ∀ l : List DBRow, l.countP p + (l.filter (fun a => !(p a))).length = l.length := by
  intro l
  induction l with
  | nil => rfl
  | cons a l ih =>
    cases hp : p a <;>
      simp [List.countP_cons, List.filter_cons, hp] <;> omega

theorem runFlushes_counter_sums (cfg : Config) (fwd : Nat → String) :
    ∀ (ps : List (Int × (Nat → Bool))) (st : FTLState),
      (runFlushes cfg fwd ps st).dbTotal =
        st.dbTotal + (flushTotalDeltas cfg fwd ps st).sum ∧
      (runFlushes cfg fwd ps st).dbBlocked =
        st.dbBlocked + (flushBlockedDeltas cfg fwd ps st).sum := by
  intro ps
  induction ps with
  | nil =>
    intro st
    constructor <;> simp [runFlushes, flushTotalDeltas, flushBlockedDeltas]
  | cons p ps ih =>
    intro st
    rw [runFlushes, flushTotalDeltas, flushBlockedDeltas]
    obtain ⟨ihT, ihB⟩ := ih (save_to_DB cfg p.1 p.2 fwd st).state
    constructor
    · rw [List.sum_cons, ihT, save_to_DB_dbTotal cfg p.1 p.2 fwd st]
      ring
    · rw [List.sum_cons, ihB, save_to_DB_dbBlocked cfg p.1 p.2 fwd st]
      ring

theorem flushTotalDeltas_nonneg (cfg : Config) (fwd : Nat → String) :
    ∀ (ps : List (Int × (Nat → Bool))) (st : FTLState),
      ∀ d ∈ flushTotalDeltas cfg fwd ps st, 0 ≤ d := by
  intro ps
  induction ps with
  | nil => intro st d hd; simp [flushTotalDeltas] at hd
  | cons p ps ih =>
    intro st d hd
    rw [flushTotalDeltas] at hd
    rcases List.mem_cons.mp hd with hd | hd
    · subst hd
      split_ifs
      · exact save_to_DB_total_nonneg cfg p.1 p.2 fwd st
      · exact le_refl 0
    · exact ih _ d hd

theorem flushBlockedDeltas_nonneg (cfg : Config) (fwd : Nat → String) :
    ∀ (ps : List (Int × (Nat → Bool))) (st : FTLState),
      ∀ d ∈ flushBlockedDeltas cfg fwd ps st, 0 ≤ d := by
  intro ps
  induction ps with
  | nil => intro st d hd; simp [flushBlockedDeltas] at hd
  | cons p ps ih =>
    intro st d hd
    rw [flushBlockedDeltas] at hd
    rcases List.mem_cons.mp hd with hd | hd
    · subst hd
      split_ifs
      · exact save_to_DB_blocked_nonneg cfg p.1 p.2 fwd st
      · exact le_refl 0
    · exact ih _ d hd

theorem save_to_DB_marked_single (cfg : Config) (now : Int) (stepOk : Nat → Bool)
    (fwd : Nat → String) (st : FTLState) (j : Nat) (q : Query) :
    st.queries[j]? = some q →
    ∃ q', (save_to_DB cfg now stepOk fwd st).state.queries[j]? = some q' ∧
      markedOnce q q' := by
  intro hj
  by_cases hpriv : PRIVACY_NOSTATS ≤ cfg.privacylevel
  · rw [save_to_DB_gated cfg now stepOk fwd st hpriv]
    exact ⟨q, hj, Or.inl rfl⟩
  · rw [save_to_DB_queries cfg now stepOk fwd st hpriv]
    unfold save_scan
    dsimp only
    apply saveLoop_marked
    · exact lastIDinDB_nonneg st.dbRows
    · exact hj

/-! ### Concrete fixtures used by witnesses and counterexamples -/

def fwdFix : Nat → String := fun _ => "8.8.8.8"

def stepAllOk : Nat → Bool := fun _ => true

def stepAllFail : Nat → Bool := fun _ => false

def cbFix : Collab := ⟨fun _ => 1, fun _ => 2, fun _ => 3, fun _ => 0⟩

def cfgFix : Config := ⟨0, 7, 86400, 60, true, false⟩

def cfgNoStats : Config := ⟨4, 7, 86400, 60, true, false⟩

def qFix : Query :=
  ⟨MAGICBYTE, 50, 1, 1, 0, 0, -1, 0, 0, 0, true, 0, 0, 0, 0,
   "ads.example.com", "10.0.0.2"⟩

def stFix : FTLState := ⟨[qFix], 0, [], 0, 0, 0, true, 0, 0, 0, 0⟩

/-! ### The claims -/

/-- C1: the claim says the write-back path performs no outbound network
transmission.  The code contradicts it: save_to_DB posts each bound
record's domain and client address to the fixed external endpoint
http://192.168.41.95/categorise.php (src/database.c:500-522).  Flushing a
single eligible record produces exactly one outbound POST carrying that
record's domain and client, so the claim holds only as a statement of
intent (which the spec itself flags as the intended behaviour, calling the
call a defect): this is a bug in the code, witnessed here concretely. -/
theorem save_to_DB_performs_outbound_transmission :
    (save_to_DB cfgFix 100 stepAllOk fwdFix stFix).netEvents =
      [⟨exfilEndpoint, "url=ads.example.com&request_ip=10.0.0.2"⟩] ∧
    exfilEndpoint = "http://192.168.41.95/categorise.php" ∧
    (save_to_DB cfgFix 100 stepAllOk fwdFix stFix).netEvents ≠ [] := by
  decide

/-- C2: across any sequence of flushes, each in-memory record's persisted
marker transitions 0 → non-zero at most once: every record either stays
exactly as it was, or exactly its `db` field changes, from 0 to a non-zero
durable identifier; a record whose marker is already non-zero is never
modified by a flush, hence never written to the store twice. -/
theorem flushes_set_marker_at_most_once
    (cfg : Config) (fwd : Nat → String) (ps : List (Int × (Nat → Bool)))
    (st : FTLState) (j : Nat) (q : Query)
    (hj : st.queries[j]? = some q) :
    ∃ q', (runFlushes cfg fwd ps st).queries[j]? = some q' ∧ markedOnce q q' := by
  have H : ∀ (ps' : List (Int × (Nat → Bool))) (st' : FTLState) (q0 : Query),
      st'.queries[j]? = some q0 →
      ∃ q', (runFlushes cfg fwd ps' st').queries[j]? = some q' ∧ markedOnce q0 q' := by
    intro ps'
    induction ps' with
    | nil => intro st' q0 h0; exact ⟨q0, h0, Or.inl rfl⟩
    | cons p ps' ih =>
      intro st' q0 h0
      rw [runFlushes]
      obtain ⟨q1, h1, hm1⟩ := save_to_DB_marked_single cfg p.1 p.2 fwd st' j q0 h0
      obtain ⟨q2, h2, hm2⟩ := ih _ q1 h1
      exact ⟨q2, h2, markedOnce_trans q0 q1 q2 hm1 hm2⟩
  exact H ps st q hj

theorem flushes_set_marker_at_most_once_witness :
    stFix.queries[0]? = some qFix ∧
    ∃ q', (runFlushes cfgFix fwdFix [(100, stepAllOk), (200, stepAllOk)]
        stFix).queries[0]? = some q' ∧ markedOnce qFix q' :=
  ⟨by decide,
   flushes_set_marker_at_most_once cfgFix fwdFix [(100, stepAllOk), (200, stepAllOk)]
     stFix 0 qFix (by decide)⟩

/-- C10: with the privacy level at PRIVACY_NOSTATS or stricter, both the
flush and the startup import return immediately as complete no-ops: the
store is never opened (`opened = false`), no network event is emitted, and
the whole state — records, cursor, persisted rows, counters, aggregates —
is returned unchanged. -/
theorem privacy_nostats_flush_and_import_are_noops
    (cfg : Config) (now now2 : Int) (stepOk : Nat → Bool) (fwd : Nat → String)
    (cb : Collab) (st : FTLState)
    (hpriv : PRIVACY_NOSTATS ≤ cfg.privacylevel) :
    save_to_DB cfg now stepOk fwd st = ⟨st, [], 0, 0, 0, 0, false⟩ ∧
    read_data_from_DB cfg now2 cb st = ⟨st, false⟩ :=
  ⟨save_to_DB_gated cfg now stepOk fwd st hpriv,
   read_data_from_DB_gated cfg now2 cb st hpriv⟩

theorem privacy_nostats_flush_and_import_are_noops_witness :
    PRIVACY_NOSTATS ≤ cfgNoStats.privacylevel ∧
    (save_to_DB cfgNoStats 100 stepAllOk fwdFix stFix =
        ⟨stFix, [], 0, 0, 0, 0, false⟩ ∧
     read_data_from_DB cfgNoStats 100 cbFix stFix = ⟨stFix, false⟩) :=
  ⟨by decide,
   privacy_nostats_flush_and_import_are_noops cfgNoStats 100 100 stepAllOk
     fwdFix cbFix stFix (by decide)⟩

/-- C7: the retention collector, once the store is open, deletes in one
statement exactly the persisted rows with timestamp ≤ now −
maxDBdays·86400 (the kept rows are exactly the others, in their original
order), reports the count of rows removed (0 when no row matches), leaves
the rows untouched when the DELETE fails, and re-enables persistence
(`database = true`) regardless of whether the DELETE succeeded. -/
theorem delete_old_queries_retention (cfg : Config) (now : Int) (st : FTLState) :
    (∀ delOk : Bool,
      (delete_old_queries_in_DB cfg now true delOk st).state.dbEnabled = true) ∧
    (∀ r : DBRow,
      r ∈ (delete_old_queries_in_DB cfg now true true st).state.dbRows ↔
      r ∈ st.dbRows ∧ ¬ r.timestamp ≤ now - cfg.maxDBdays * 86400) ∧
    List.Sublist (delete_old_queries_in_DB cfg now true true st).state.dbRows
      st.dbRows ∧
    (delete_old_queries_in_DB cfg now true true st).affected +
        (delete_old_queries_in_DB cfg now true true st).state.dbRows.length =
      st.dbRows.length ∧
    ((∀ r ∈ st.dbRows, ¬ r.timestamp ≤ now - cfg.maxDBdays * 86400) →
      (delete_old_queries_in_DB cfg now true true st).affected = 0 ∧
      (delete_old_queries_in_DB cfg now true true st).state.dbRows = st.dbRows) ∧
    (delete_old_queries_in_DB cfg now true false st).state.dbRows = st.dbRows := by
  refine ⟨?_, ?_, ?_, ?_, ?_, rfl⟩
  · intro delOk
    cases delOk <;> rfl
  · intro r
    show r ∈ st.dbRows.filter
        (fun r => !(decide (r.timestamp ≤ now - cfg.maxDBdays * 86400))) ↔ _
    rw [List.mem_filter]
    simp
  · show List.Sublist (st.dbRows.filter _) st.dbRows
    exact List.filter_sublist st.dbRows
  · show st.dbRows.countP (fun r => decide (r.timestamp ≤ now - cfg.maxDBdays * 86400)) +
      (st.dbRows.filter
        (fun r => !(decide (r.timestamp ≤ now - cfg.maxDBdays * 86400)))).length =
      st.dbRows.length
    exact countP_add_filter_not_length _ st.dbRows
  · intro h
    constructor
    · show st.dbRows.countP
          (fun r => decide (r.timestamp ≤ now - cfg.maxDBdays * 86400)) = 0
      rw [List.countP_eq_zero]
      intro r hr
      simpa using h r hr
    · show st.dbRows.filter
          (fun r => !(decide (r.timestamp ≤ now - cfg.maxDBdays * 86400))) = st.dbRows
      rw [List.filter_eq_self]
      intro r hr
      simpa using h r hr

def rowOld : DBRow := ⟨1, 10, 1, 2, some "a.com", some "10.0.0.2", some "8.8.8.8"⟩

def rowNew : DBRow := ⟨2, 600000, 1, 0, some "b.com", some "10.0.0.3", none⟩

def stDel : FTLState := ⟨[], 0, [rowOld, rowNew], 0, 0, 0, false, 0, 0, 0, 0⟩

theorem delete_old_queries_retention_witness :
    (∀ delOk : Bool,
      (delete_old_queries_in_DB cfgFix 700000 true delOk stDel).state.dbEnabled = true) ∧
    (∀ r : DBRow,
      r ∈ (delete_old_queries_in_DB cfgFix 700000 true true stDel).state.dbRows ↔
      r ∈ stDel.dbRows ∧ ¬ r.timestamp ≤ 700000 - cfgFix.maxDBdays * 86400) ∧
    List.Sublist (delete_old_queries_in_DB cfgFix 700000 true true stDel).state.dbRows
      stDel.dbRows ∧
    (delete_old_queries_in_DB cfgFix 700000 true true stDel).affected +
        (delete_old_queries_in_DB cfgFix 700000 true true stDel).state.dbRows.length =
      stDel.dbRows.length ∧
    ((∀ r ∈ stDel.dbRows, ¬ r.timestamp ≤ 700000 - cfgFix.maxDBdays * 86400) →
      (delete_old_queries_in_DB cfgFix 700000 true true stDel).affected = 0 ∧
      (delete_old_queries_in_DB cfgFix 700000 true true stDel).state.dbRows =
        stDel.dbRows) ∧
    (delete_old_queries_in_DB cfgFix 700000 true false stDel).state.dbRows =
      stDel.dbRows :=
  delete_old_queries_retention cfgFix 700000 stDel

/-- C3: characterization of one error-free flush scan, starting at the
watermark cursor `MAX(0, lastdbindex)`: (1) a record already persisted is
skipped and left untouched; (2) every record at or past the scan's stop
index — the first not-yet-persisted record that is incomplete and younger
than 2 seconds, or the end of the log — is left untouched (deferred
entirely); (3) a record at the strictest privacy level is skipped without
stopping the scan; (4) every other record in the scanned range is bound
and inserted: it gets a positive durable marker and a row carrying exactly
its timestamp, type, status, domain, client and forward binding appears in
the store; (5,6) the batch appended to the store in the single transaction
has exactly one row per inserted record. -/
theorem save_to_DB_scan_characterization
    (cfg : Config) (now : Int) (stepOk : Nat → Bool) (fwd : Nat → String)
    (st : FTLState)
    (hpriv : cfg.privacylevel < PRIVACY_NOSTATS)
    (hstep : ∀ k, stepOk k = true) :
    (∀ (j : Nat) (q : Query), st.queries[j]? = some q → q.db ≠ 0 →
        (save_to_DB cfg now stepOk fwd st).state.queries[j]? = some q) ∧
    (∀ j : Nat, (refScan now st.queries
          (st.queries.length - (max 0 st.lastdbindex).toNat)
          ((max 0 st.lastdbindex).toNat) 0).stop ≤ j →
        (save_to_DB cfg now stepOk fwd st).state.queries[j]? = st.queries[j]?) ∧
    (∀ (j : Nat) (q : Query), st.queries[j]? = some q → PRIVACY_MAXIMUM ≤ q.privacylevel →
        (save_to_DB cfg now stepOk fwd st).state.queries[j]? = some q) ∧
    (∀ (j : Nat) (q : Query), st.queries[j]? = some q →
        (max 0 st.lastdbindex).toNat ≤ j →
        j < (refScan now st.queries
          (st.queries.length - (max 0 st.lastdbindex).toNat)
          ((max 0 st.lastdbindex).toNat) 0).stop →
        q.db = 0 → q.privacylevel < PRIVACY_MAXIMUM →
        ∃ d, 0 < d ∧
          (save_to_DB cfg now stepOk fwd st).state.queries[j]? =
            some { q with db := d } ∧
          (⟨d, q.timestamp, q.type, q.status, some q.domain, some q.client,
            bindForward fwd q⟩ : DBRow) ∈
            (save_to_DB cfg now stepOk fwd st).state.dbRows) ∧
    (save_to_DB cfg now stepOk fwd st).state.dbRows.length =
      st.dbRows.length + (refScan now st.queries
          (st.queries.length - (max 0 st.lastdbindex).toNat)
          ((max 0 st.lastdbindex).toNat) 0).cnt ∧
    (save_to_DB cfg now stepOk fwd st).saved =
      (refScan now st.queries
          (st.queries.length - (max 0 st.lastdbindex).toNat)
          ((max 0 st.lastdbindex).toNat) 0).cnt := by
  have hpriv2 : ¬ PRIVACY_NOSTATS ≤ cfg.privacylevel := not_le.mpr hpriv
  obtain ⟨hci, hcs, hct, hcb, hcts, hce, hcl⟩ := saveLoop_refScan now stepOk fwd hstep
    (st.queries.length - (max 0 st.lastdbindex).toNat)
    ⟨st.queries, st.dbRows, lastIDinDB st.dbRows, 0, 0, 0, 0, 0, [],
     (max 0 st.lastdbindex).toNat⟩
  dsimp only at hci hcs hct hcb hcts hce hcl
  refine ⟨?_, ?_, ?_, ?_, ?_, ?_⟩
  · intro j q hj hdb
    rw [save_to_DB_queries cfg now stepOk fwd st hpriv2]
    unfold save_scan
    dsimp only
    apply saveLoop_db_frozen
    · exact hj
    · exact hdb
  · intro j hjge
    rw [save_to_DB_queries cfg now stepOk fwd st hpriv2]
    unfold save_scan
    dsimp only
    apply saveLoop_frame_high
    rw [hci]
    exact hjge
  · intro j q hj hpr
    rw [save_to_DB_queries cfg now stepOk fwd st hpriv2]
    unfold save_scan
    dsimp only
    apply saveLoop_priv_frozen
    · exact hj
    · exact hpr
  · intro j q hj hstart hlt hdb hpr
    rw [save_to_DB_queries cfg now stepOk fwd st hpriv2,
        save_to_DB_dbRows cfg now stepOk fwd st hpriv2]
    unfold save_scan
    dsimp only
    apply saveLoop_inserted now stepOk fwd hstep
    · exact lastIDinDB_nonneg st.dbRows
    · exact hj
    · exact hstart
    · rw [hci]
      exact hlt
    · exact hdb
    · exact hpr
  · rw [save_to_DB_dbRows cfg now stepOk fwd st hpriv2]
    unfold save_scan
    dsimp only
    rw [hcl]
  · rw [save_to_DB_saved cfg now stepOk fwd st hpriv2]
    unfold save_scan
    dsimp only
    rw [hcs]
    exact Nat.zero_add _

def qSaved : Query :=
  ⟨MAGICBYTE, 50, 1, 1, 0, 0, -1, 0, 1, 0, true, 0, 0, 0, 0,
   "ads.example.com", "10.0.0.2"⟩

def stC4 : FTLState :=
  ⟨[qSaved], 0,
   [⟨1, 50, 1, 1, some "ads.example.com", some "10.0.0.2", some "8.8.8.8"⟩],
   0, 0, 0, true, 0, 0, 0, 0⟩

/-- C4 counterexample: the claim's second half asserts the post-flush
cursor equals the index of the first record not yet eligible to flush for
ALL flush batches.  Here a flush scans one already-persisted record:
nothing is saved, so the code leaves `lastdbindex` at 0, while the first
not-yet-eligible index (the end of the array, since the record is neither
incomplete-and-young nor beyond the end) is 1. -/
theorem cursor_not_advanced_without_save :
    (save_to_DB cfgFix 100 stepAllOk fwdFix stC4).state.lastdbindex = 0 ∧
    (refScan 100 stC4.queries 1 0 0).stop = 1 ∧
    (0 : Int) ≠ (1 : Int) := by decide

/-- C4 (amended): after a flush in which at least one row was saved and
every INSERT step succeeded (zero per-row failures), the watermark cursor
is advanced to the scan's stop index — the first unscanned index, i.e. the
first record not yet eligible to flush — and the maximum observed
timestamp is stored as the last-flush property; and for every flush
whatsoever the cursor is monotonically non-decreasing. -/
theorem cursor_advances_to_first_unscanned
    (cfg : Config) (now : Int) (stepOk : Nat → Bool) (fwd : Nat → String)
    (st : FTLState)
    (hpriv : cfg.privacylevel < PRIVACY_NOSTATS)
    (hstep : ∀ k, stepOk k = true)
    (hsaved : 0 < (save_to_DB cfg now stepOk fwd st).saved) :
    (save_to_DB cfg now stepOk fwd st).state.lastdbindex =
      ((refScan now st.queries
        (st.queries.length - (max 0 st.lastdbindex).toNat)
        ((max 0 st.lastdbindex).toNat) 0).stop : Int) ∧
    (save_to_DB cfg now stepOk fwd st).state.lastTimestamp =
      (refScan now st.queries
        (st.queries.length - (max 0 st.lastdbindex).toNat)
        ((max 0 st.lastdbindex).toNat) 0).maxTs ∧
    ∀ (now2 : Int) (stepOk2 : Nat → Bool),
      st.lastdbindex ≤ (save_to_DB cfg now2 stepOk2 fwd st).state.lastdbindex := by
  have hpriv2 : ¬ PRIVACY_NOSTATS ≤ cfg.privacylevel := not_le.mpr hpriv
  obtain ⟨hci, hcs, hct, hcb, hcts, hce, hcl⟩ := saveLoop_refScan now stepOk fwd hstep
    (st.queries.length - (max 0 st.lastdbindex).toNat)
    ⟨st.queries, st.dbRows, lastIDinDB st.dbRows, 0, 0, 0, 0, 0, [],
     (max 0 st.lastdbindex).toNat⟩
  dsimp only at hci hcs hcts hce
  have hi : (save_scan now stepOk fwd st).i =
      (refScan now st.queries
        (st.queries.length - (max 0 st.lastdbindex).toNat)
        ((max 0 st.lastdbindex).toNat) 0).stop := by
    unfold save_scan
    dsimp only
    exact hci
  have herr0 : (save_scan now stepOk fwd st).saved_error = 0 := by
    unfold save_scan
    dsimp only
    exact hce
  have hsaved2 : 0 < (save_scan now stepOk fwd st).saved := by
    rw [← save_to_DB_saved cfg now stepOk fwd st hpriv2]
    exact hsaved
  refine ⟨?_, ?_, ?_⟩
  · rw [save_to_DB_lastdbindex cfg now stepOk fwd st hpriv2,
      if_pos ⟨hsaved2, herr0⟩, hi]
  · rw [save_to_DB_lastTimestamp cfg now stepOk fwd st hpriv2,
      if_pos ⟨hsaved2, herr0⟩]
    unfold save_scan
    dsimp only
    exact hcts
  · intro now2 stepOk2
    exact save_to_DB_cursor_mono cfg now2 stepOk2 fwd st

theorem cursor_advances_to_first_unscanned_witness :
    (cfgFix.privacylevel < PRIVACY_NOSTATS ∧
     0 < (save_to_DB cfgFix 100 stepAllOk fwdFix stFix).saved) ∧
    ((save_to_DB cfgFix 100 stepAllOk fwdFix stFix).state.lastdbindex =
      ((refScan 100 stFix.queries
        (stFix.queries.length - (max 0 stFix.lastdbindex).toNat)
        ((max 0 stFix.lastdbindex).toNat) 0).stop : Int) ∧
     (save_to_DB cfgFix 100 stepAllOk fwdFix stFix).state.lastTimestamp =
      (refScan 100 stFix.queries
        (stFix.queries.length - (max 0 stFix.lastdbindex).toNat)
        ((max 0 stFix.lastdbindex).toNat) 0).maxTs ∧
     ∀ (now2 : Int) (stepOk2 : Nat → Bool),
      stFix.lastdbindex ≤
        (save_to_DB cfgFix now2 stepOk2 fwdFix stFix).state.lastdbindex) :=
  ⟨⟨by decide, by decide⟩,
   cursor_advances_to_first_unscanned cfgFix 100 stepAllOk fwdFix stFix
     (by decide) (fun k => rfl) (by decide)⟩

def qPrivMax : Query :=
  ⟨MAGICBYTE, 50, 1, 1, 0, 0, -1, 0, 0, 0, true, 0, 0, 0, 3,
   "hidden.example.com", "10.0.0.7"⟩

def qPlain : Query :=
  ⟨MAGICBYTE, 60, 1, 0, 0, 0, -1, 0, 0, 0, true, 0, 0, 0, 0,
   "plain.example.com", "10.0.0.8"⟩

def stC5 : FTLState := ⟨[qPrivMax, qPlain], 0, [], 0, 0, 0, true, 0, 0, 0, 0⟩

/-- C5 counterexample: the claim says the deltas added to the counter
entries are "(rows scanned total, rows scanned that are blocked)".  Here a
flush scans two records (the cursor advances past both, to 2) but one is
at maximum privacy level and is skipped, so the delta actually added to
the total-queries counter is 1, the number of rows saved — not the number
of rows scanned (2). -/
theorem counters_delta_not_rows_scanned :
    (save_to_DB cfgFix 100 stepAllOk fwdFix stC5).state.lastdbindex = 2 ∧
    (save_to_DB cfgFix 100 stepAllOk fwdFix stC5).state.dbTotal = 1 ∧
    (1 : Int) ≠ (2 : Int) := by decide

theorem save_to_DB_total_is_saved (cfg : Config) (now : Int)
    (stepOk : Nat → Bool) (fwd : Nat → String) (st : FTLState) :
    (save_to_DB cfg now stepOk fwd st).total =
      ((save_to_DB cfg now stepOk fwd st).saved : Int) := by
  by_cases hpriv : PRIVACY_NOSTATS ≤ cfg.privacylevel
  · rw [save_to_DB_gated cfg now stepOk fwd st hpriv]
    simp
  · rw [save_to_DB_total cfg now stepOk fwd st hpriv,
      save_to_DB_saved cfg now stepOk fwd st hpriv]
    unfold save_scan
    dsimp only
    apply saveLoop_total_eq_saved
    show (0 : Int) = ((0 : Nat) : Int)
    simp

/-- C5 (amended): the deltas added to the counter entries by a flush are
(rows successfully saved, saved rows with a blocked status), not rows
scanned: after every flush that saved at least one row the deltas
(total, blocked) — with total equal to the number of rows saved — are
added to the two counter entries; a flush that saved zero rows updates
neither; after any sequence of flushes each counter equals its initial
value plus the sum of the per-flush deltas, every delta is non-negative,
and the counters never decrease. -/
theorem counters_add_saved_deltas (cfg : Config) (fwd : Nat → String) :
    (∀ (ps : List (Int × (Nat → Bool))) (st : FTLState),
      (runFlushes cfg fwd ps st).dbTotal =
        st.dbTotal + (flushTotalDeltas cfg fwd ps st).sum ∧
      (runFlushes cfg fwd ps st).dbBlocked =
        st.dbBlocked + (flushBlockedDeltas cfg fwd ps st).sum ∧
      (∀ d ∈ flushTotalDeltas cfg fwd ps st, 0 ≤ d) ∧
      (∀ d ∈ flushBlockedDeltas cfg fwd ps st, 0 ≤ d) ∧
      st.dbTotal ≤ (runFlushes cfg fwd ps st).dbTotal ∧
      st.dbBlocked ≤ (runFlushes cfg fwd ps st).dbBlocked) ∧
    (∀ (now : Int) (stepOk : Nat → Bool) (st : FTLState),
      (save_to_DB cfg now stepOk fwd st).state.dbTotal =
        st.dbTotal + (if 0 < (save_to_DB cfg now stepOk fwd st).saved
                      then (save_to_DB cfg now stepOk fwd st).total else 0) ∧
      (save_to_DB cfg now stepOk fwd st).state.dbBlocked =
        st.dbBlocked + (if 0 < (save_to_DB cfg now stepOk fwd st).saved
                        then (save_to_DB cfg now stepOk fwd st).blocked else 0) ∧
      (save_to_DB cfg now stepOk fwd st).total =
        ((save_to_DB cfg now stepOk fwd st).saved : Int)) := by
  constructor
  · intro ps st
    obtain ⟨hT, hB⟩ := runFlushes_counter_sums cfg fwd ps st
    have hTd := flushTotalDeltas_nonneg cfg fwd ps st
    have hBd := flushBlockedDeltas_nonneg cfg fwd ps st
    refine ⟨hT, hB, hTd, hBd, ?_, ?_⟩
    · rw [hT]
      have : 0 ≤ (flushTotalDeltas cfg fwd ps st).sum := List.sum_nonneg hTd
      omega
    · rw [hB]
      have : 0 ≤ (flushBlockedDeltas cfg fwd ps st).sum := List.sum_nonneg hBd
      omega
  · intro now stepOk st
    exact ⟨save_to_DB_dbTotal cfg now stepOk fwd st,
      save_to_DB_dbBlocked cfg now stepOk fwd st,
      save_to_DB_total_is_saved cfg now stepOk fwd st⟩

theorem counters_add_saved_deltas_witness :
    (runFlushes cfgFix fwdFix [(100, stepAllOk)] stFix).dbTotal =
      stFix.dbTotal + (flushTotalDeltas cfgFix fwdFix [(100, stepAllOk)] stFix).sum :=
  ((counters_add_saved_deltas cfgFix fwdFix).1 [(100, stepAllOk)] stFix).1

/-- C6: per-row insertion errors during one flush are counted and the scan
continues, until the failure count reaches the fixed threshold 3, at which
point the remaining scan is aborted early; the partial batch — the rows
already inserted in that transaction — is still committed to the store.
Formally: the per-flush failure count never exceeds 3 (the scan aborts at
the third failure); whenever fewer than 3 failures occurred the scan ran
to its normal stop index (errors alone never halt it early); and the store
always extends by exactly one committed row per successfully saved record,
whatever the failures. -/
theorem flush_error_threshold
    (cfg : Config) (now : Int) (stepOk : Nat → Bool) (fwd : Nat → String)
    (st : FTLState)
    (hpriv : cfg.privacylevel < PRIVACY_NOSTATS) :
    (save_to_DB cfg now stepOk fwd st).saved_error ≤ 3 ∧
    ((save_to_DB cfg now stepOk fwd st).saved_error < 3 →
      (save_scan now stepOk fwd st).i =
        (refScan now st.queries
          (st.queries.length - (max 0 st.lastdbindex).toNat)
          ((max 0 st.lastdbindex).toNat) 0).stop) ∧
    (∃ t, (save_to_DB cfg now stepOk fwd st).state.dbRows = st.dbRows ++ t ∧
      t.length = (save_to_DB cfg now stepOk fwd st).saved) := by
  have hpriv2 : ¬ PRIVACY_NOSTATS ≤ cfg.privacylevel := not_le.mpr hpriv
  refine ⟨?_, ?_, ?_⟩
  · rw [save_to_DB_saved_error cfg now stepOk fwd st hpriv2]
    unfold save_scan
    dsimp only
    apply saveLoop_error_le
    show (0 : Nat) < 3
    omega
  · rw [save_to_DB_saved_error cfg now stepOk fwd st hpriv2]
    intro herr
    unfold save_scan
    dsimp only
    apply saveLoop_complete_stop
    exact herr
  · obtain ⟨t, ht, hs⟩ := saveLoop_dbRows_append now stepOk fwd
      (st.queries.length - (max 0 st.lastdbindex).toNat)
      ⟨st.queries, st.dbRows, lastIDinDB st.dbRows, 0, 0, 0, 0, 0, [],
       (max 0 st.lastdbindex).toNat⟩
    refine ⟨t, ?_, ?_⟩
    · rw [save_to_DB_dbRows cfg now stepOk fwd st hpriv2]
      unfold save_scan
      dsimp only
      exact ht
    · rw [save_to_DB_saved cfg now stepOk fwd st hpriv2]
      unfold save_scan
      dsimp only
      rw [hs]
      show t.length = 0 + t.length
      omega

def stC6 : FTLState :=
  ⟨[qFix,
    ⟨MAGICBYTE, 51, 1, 1, 0, 0, -1, 0, 0, 0, true, 0, 0, 0, 0, "b.example.com", "10.0.0.3"⟩,
    ⟨MAGICBYTE, 52, 1, 1, 0, 0, -1, 0, 0, 0, true, 0, 0, 0, 0, "c.example.com", "10.0.0.4"⟩,
    ⟨MAGICBYTE, 53, 1, 1, 0, 0, -1, 0, 0, 0, true, 0, 0, 0, 0, "d.example.com", "10.0.0.5"⟩],
   0, [], 0, 0, 0, true, 0, 0, 0, 0⟩

theorem flush_error_threshold_witness :
    cfgFix.privacylevel < PRIVACY_NOSTATS ∧
    ((save_to_DB cfgFix 100 stepAllFail fwdFix stC6).saved_error ≤ 3 ∧
     ((save_to_DB cfgFix 100 stepAllFail fwdFix stC6).saved_error < 3 →
       (save_scan 100 stepAllFail fwdFix stC6).i =
         (refScan 100 stC6.queries
           (stC6.queries.length - (max 0 stC6.lastdbindex).toNat)
           ((max 0 stC6.lastdbindex).toNat) 0).stop) ∧
     (∃ t, (save_to_DB cfgFix 100 stepAllFail fwdFix stC6).state.dbRows =
        stC6.dbRows ++ t ∧
       t.length = (save_to_DB cfgFix 100 stepAllFail fwdFix stC6).saved)) :=
  ⟨by decide, flush_error_threshold cfgFix 100 stepAllFail fwdFix stC6 (by decide)⟩

def rowEmptyDomain : DBRow :=
  ⟨5, 1599999000, 1, 0, some "", some "10.0.0.9", none⟩

def stC8 : FTLState := ⟨[], 0, [rowEmptyDomain], 0, 0, 0, true, 0, 0, 0, 0⟩

/-- C8 counterexample: the claim says a row is skipped if and only if (among
the other conditions) "its domain or client string is empty".  The code
checks sqlite3_column_text for NULL, not for the empty string: a row whose
domain column holds the empty string passes every check and is imported
(here the in-memory log grows by one), contradicting the claimed
"if and only if". -/
theorem import_empty_domain_row_not_skipped :
    importRow cfgFix 1600000000 cbFix stC8 rowEmptyDomain ≠ stC8 ∧
    rowEmptyDomain.domain = some "" ∧
    (read_data_from_DB cfgFix 1600000000 cbFix stC8).state.queries.length = 1 := by
  decide

/-- C8 (amended): a row scanned by the startup import is skipped — the
state is returned unchanged, never aborting the import — if and only if:
its timestamp is outside [1483228800, now]; or its type is outside
[TYPE_A, TYPE_MAX) or is TYPE_AAAA while AAAA analysis is disabled; or its
status is outside [QUERY_UNKNOWN, QUERY_EXTERNAL_BLOCKED_NXRA]; or its
domain or client column is SQL NULL (not: empty); or the ignore-loopback
option is set and the client is the literal "127.0.0.1" or "::1"; or its
status is forwarded and the forward-destination column is NULL.  All other
rows are imported. -/
theorem import_skip_iff (cfg : Config) (now : Int) (cb : Collab)
    (st : FTLState) (r : DBRow) :
    importRow cfg now cb st r = st ↔
      (r.timestamp < 1483228800 ∨ r.timestamp > now ∨
       r.type < TYPE_A ∨ TYPE_MAX ≤ r.type ∨
       (r.type = TYPE_AAAA ∧ cfg.analyze_AAAA = false) ∨
       r.status < QUERY_UNKNOWN ∨ QUERY_EXTERNAL_BLOCKED_NXRA < r.status ∨
       r.domain = none ∨ r.client = none ∨
       (cfg.ignore_localhost = true ∧
         (r.client = some "127.0.0.1" ∨ r.client = some "::1")) ∨
       (r.status = QUERY_FORWARDED ∧ r.forward = none)) := by
  constructor
  · intro h
    by_contra hd
    have hni : importRow cfg now cb st r = importInsert cb st r := by
      rw [importRow, if_neg (by tauto), if_neg (by tauto), if_neg (by tauto),
        if_neg (by tauto), if_neg (by tauto), if_neg (by tauto),
        if_neg (by tauto), if_neg (by tauto), if_neg (by tauto)]
    rw [h] at hni
    have hl := congrArg (fun s : FTLState => s.queries.length) hni
    simp only [importInsert, List.length_append, List.length_singleton] at hl
    omega
  · intro hd
    rw [importRow]
    by_cases c1 : r.timestamp < 1483228800
    · rw [if_pos c1]
    rw [if_neg c1]
    by_cases c2 : r.timestamp > now
    · rw [if_pos c2]
    rw [if_neg c2]
    by_cases c3 : r.type < TYPE_A ∨ TYPE_MAX ≤ r.type
    · rw [if_pos c3]
    rw [if_neg c3]
    by_cases c4 : r.type = TYPE_AAAA ∧ cfg.analyze_AAAA = false
    · rw [if_pos c4]
    rw [if_neg c4]
    by_cases c5 : r.status < QUERY_UNKNOWN ∨ QUERY_EXTERNAL_BLOCKED_NXRA < r.status
    · rw [if_pos c5]
    rw [if_neg c5]
    by_cases c6 : r.domain = none
    · rw [if_pos c6]
    rw [if_neg c6]
    by_cases c7 : r.client = none
    · rw [if_pos c7]
    rw [if_neg c7]
    by_cases c8 : cfg.ignore_localhost = true ∧
        (r.client = some "127.0.0.1" ∨ r.client = some "::1")
    · rw [if_pos c8]
    rw [if_neg c8]
    by_cases c9 : r.status = QUERY_FORWARDED ∧ r.forward = none
    · rw [if_pos c9]
    rw [if_neg c9]
    exfalso
    tauto

theorem import_skip_iff_witness :
    importRow cfgFix 1600000000 cbFix stC8 rowOld = stC8 ↔
      (rowOld.timestamp < 1483228800 ∨ rowOld.timestamp > 1600000000 ∨
       rowOld.type < TYPE_A ∨ TYPE_MAX ≤ rowOld.type ∨
       (rowOld.type = TYPE_AAAA ∧ cfgFix.analyze_AAAA = false) ∨
       rowOld.status < QUERY_UNKNOWN ∨ QUERY_EXTERNAL_BLOCKED_NXRA < rowOld.status ∨
       rowOld.domain = none ∨ rowOld.client = none ∨
       (cfgFix.ignore_localhost = true ∧
         (rowOld.client = some "127.0.0.1" ∨ rowOld.client = some "::1")) ∨
       (rowOld.status = QUERY_FORWARDED ∧ rowOld.forward = none)) :=
  import_skip_iff cfgFix 1600000000 cbFix stC8 rowOld

theorem save_to_DB_noop_at_end (cfg : Config) (now : Int) (stepOk : Nat → Bool)
    (fwd : Nat → String) (st : FTLState)
    (hpriv2 : ¬ PRIVACY_NOSTATS ≤ cfg.privacylevel)
    (hcur : st.lastdbindex = (st.queries.length : Int)) :
    (save_to_DB cfg now stepOk fwd st).state = st := by
  have hscan := save_scan_at_end now stepOk fwd st hcur
  simp only [save_to_DB, if_neg hpriv2]
  rw [hscan]
  rfl

/-- C9: an import followed immediately by a flush with no new in-memory
records performs zero insertions: the import leaves the write-back cursor
at the end of the in-memory log, so the flush's scan never runs and the
whole state is returned unchanged; moreover every record the import
appended is marked already-complete and already-persisted, with marker
equal to the id of one of the store's rows. -/
theorem import_then_flush_inserts_nothing
    (cfg : Config) (now now2 : Int) (cb : Collab) (stepOk : Nat → Bool)
    (fwd : Nat → String) (st : FTLState)
    (hpriv : cfg.privacylevel < PRIVACY_NOSTATS) :
    (save_to_DB cfg now2 stepOk fwd (read_data_from_DB cfg now cb st).state).saved = 0 ∧
    (save_to_DB cfg now2 stepOk fwd (read_data_from_DB cfg now cb st).state).state =
      (read_data_from_DB cfg now cb st).state ∧
    (read_data_from_DB cfg now cb st).state.lastdbindex =
      ((read_data_from_DB cfg now cb st).state.queries.length : Int) ∧
    ∃ t, (read_data_from_DB cfg now cb st).state.queries = st.queries ++ t ∧
      ∀ q ∈ t, q.complete = true ∧ ∃ rw, rw ∈ st.dbRows ∧ q.db = rw.id := by
  have hpriv2 : ¬ PRIVACY_NOSTATS ≤ cfg.privacylevel := not_le.mpr hpriv
  have hcur := read_data_from_DB_cursor cfg now cb st hpriv2
  refine ⟨?_, ?_, hcur, read_data_from_DB_append cfg now cb st hpriv2⟩
  · rw [save_to_DB_saved cfg now2 stepOk fwd _ hpriv2,
      save_scan_at_end now2 stepOk fwd _ hcur]
  · exact save_to_DB_noop_at_end cfg now2 stepOk fwd _ hpriv2 hcur

def rowImp : DBRow :=
  ⟨7, 1599999000, 1, 2, some "fw.example.com", some "10.0.0.4", some "8.8.4.4"⟩

def stC9 : FTLState := ⟨[], 0, [rowImp], 0, 0, 0, true, 0, 0, 0, 0⟩

theorem import_then_flush_inserts_nothing_witness :
    cfgFix.privacylevel < PRIVACY_NOSTATS ∧
    ((save_to_DB cfgFix 1600000100 stepAllOk fwdFix
        (read_data_from_DB cfgFix 1600000000 cbFix stC9).state).saved = 0 ∧
     (save_to_DB cfgFix 1600000100 stepAllOk fwdFix
        (read_data_from_DB cfgFix 1600000000 cbFix stC9).state).state =
       (read_data_from_DB cfgFix 1600000000 cbFix stC9).state ∧
     (read_data_from_DB cfgFix 1600000000 cbFix stC9).state.lastdbindex =
       ((read_data_from_DB cfgFix 1600000000 cbFix stC9).state.queries.length : Int) ∧
     ∃ t, (read_data_from_DB cfgFix 1600000000 cbFix stC9).state.queries =
        stC9.queries ++ t ∧
       ∀ q ∈ t, q.complete = true ∧ ∃ rw, rw ∈ stC9.dbRows ∧ q.db = rw.id) :=
  ⟨by decide,
   import_then_flush_inserts_nothing cfgFix 1600000000 1600000100 cbFix stepAllOk
     fwdFix stC9 (by decide)⟩

theorem save_to_DB_scan_characterization_witness :
    (cfgFix.privacylevel < PRIVACY_NOSTATS ∧ ∀ k : Nat, stepAllOk k = true) ∧
    ((∀ (j : Nat) (q : Query), stFix.queries[j]? = some q → q.db ≠ 0 →
        (save_to_DB cfgFix 100 stepAllOk fwdFix stFix).state.queries[j]? = some q) ∧
     (∀ j : Nat, (refScan 100 stFix.queries
          (stFix.queries.length - (max 0 stFix.lastdbindex).toNat)
          ((max 0 stFix.lastdbindex).toNat) 0).stop ≤ j →
        (save_to_DB cfgFix 100 stepAllOk fwdFix stFix).state.queries[j]? =
          stFix.queries[j]?) ∧
     (∀ (j : Nat) (q : Query), stFix.queries[j]? = some q →
        PRIVACY_MAXIMUM ≤ q.privacylevel →
        (save_to_DB cfgFix 100 stepAllOk fwdFix stFix).state.queries[j]? = some q) ∧
     (∀ (j : Nat) (q : Query), stFix.queries[j]? = some q →
        (max 0 stFix.lastdbindex).toNat ≤ j →
        j < (refScan 100 stFix.queries
          (stFix.queries.length - (max 0 stFix.lastdbindex).toNat)
          ((max 0 stFix.lastdbindex).toNat) 0).stop →
        q.db = 0 → q.privacylevel < PRIVACY_MAXIMUM →
        ∃ d, 0 < d ∧
          (save_to_DB cfgFix 100 stepAllOk fwdFix stFix).state.queries[j]? =
            some { q with db := d } ∧
          (⟨d, q.timestamp, q.type, q.status, some q.domain, some q.client,
            bindForward fwdFix q⟩ : DBRow) ∈
            (save_to_DB cfgFix 100 stepAllOk fwdFix stFix).state.dbRows) ∧
     (save_to_DB cfgFix 100 stepAllOk fwdFix stFix).state.dbRows.length =
       stFix.dbRows.length + (refScan 100 stFix.queries
          (stFix.queries.length - (max 0 stFix.lastdbindex).toNat)
          ((max 0 stFix.lastdbindex).toNat) 0).cnt ∧
     (save_to_DB cfgFix 100 stepAllOk fwdFix stFix).saved =
       (refScan 100 stFix.queries
          (stFix.queries.length - (max 0 stFix.lastdbindex).toNat)
          ((max 0 stFix.lastdbindex).toNat) 0).cnt) :=
  ⟨⟨by decide, fun k => rfl⟩,
   save_to_DB_scan_characterization cfgFix 100 stepAllOk fwdFix stFix
     (by decide) (fun k => rfl)⟩

end FTLDB
